import Mathlib

/-!
# Telemetry provider and recorder of the integration gateway

A shallow embedding of `integration-gateway/telemetry` (provider.go, telemetry.go,
cmd/main.go).  The package is glue code over the OpenTelemetry SDK, which is not
part of the repository: the SDK is a parameter (`SDK`) that answers every call the
package makes on it, and the embedding keeps the list of those calls (`World.log`)
together with the two process-wide slots that `otel.SetTracerProvider` and
`otel.SetMeterProvider` write and, for the end-to-end behaviour, what reached the
metrics pipelines (`World.pipeline`).
-/

namespace Asoos

/-! ## Values that cross the package boundary -/

/-- A Go `error` that is not nil; a nil error is `none` of `Option Err`. -/
structure Err where
  msg : String
  deriving DecidableEq

/-- A `context.Context`: the package only passes it through. -/
structure Context where
  id : Nat
  deriving DecidableEq

/-- The context returned by `context.Background()`. -/
def Context.Background : Context := ⟨0⟩

/-- A `float64` argument.  The package never computes with it, so only its identity
matters: a finite value, one of the infinities, or a NaN. -/
inductive Float64 where
  | finite (q : ℚ)
  | posInf
  | negInf
  | nan
  deriving DecidableEq

/-- An `io.Writer` (an output sink), known by its identity: the standard output
stream `os.Stdout` or a sink of the caller. -/
inductive Writer where
  | stdout
  | sink (id : Nat)
  deriving DecidableEq

/-! ## SDK objects, as far as the package builds and holds them -/

/-- Options of `stdouttrace.New`. -/
inductive StdoutTraceOption where
  | WithPrettyPrint
  | WithWriter (w : Writer)
  deriving DecidableEq

/-- Options of `stdoutmetric.New`. -/
inductive StdoutMetricOption where
  | WithWriter (w : Writer)
  deriving DecidableEq

/-- A `*stdouttrace.Exporter`: `id` is the position of the constructing call in the
call log, which tells two exporters built with equal options apart. -/
structure TraceExporter where
  id : Nat
  opts : List StdoutTraceOption
  deriving DecidableEq

/-- A `sdkmetric.Exporter` built by `stdoutmetric.New`. -/
structure MetricExporter where
  id : Nat
  opts : List StdoutMetricOption
  deriving DecidableEq

/-- A `sdktrace.Sampler`; the package only uses `AlwaysSample()`. -/
inductive Sampler where
  | AlwaysSample
  deriving DecidableEq

/-- Options of `sdktrace.NewTracerProvider`. -/
inductive TracerProviderOption where
  | WithSampler (s : Sampler)
  | WithBatcher (e : TraceExporter)
  deriving DecidableEq

/-- A `*sdktrace.TracerProvider` (the tracing pipeline). -/
structure TracerProvider where
  opts : List TracerProviderOption
  deriving DecidableEq

/-- A `sdkmetric.Reader`; the package only uses `NewPeriodicReader`. -/
inductive Reader where
  | PeriodicReader (e : MetricExporter)
  deriving DecidableEq

/-- Options of `sdkmetric.NewMeterProvider`. -/
inductive MeterProviderOption where
  | WithReader (r : Reader)
  deriving DecidableEq

/-- A `*sdkmetric.MeterProvider` (the metrics pipeline). -/
structure MeterProvider where
  opts : List MeterProviderOption
  deriving DecidableEq

/-- What the process-wide tracer slot of package `otel` holds: the built-in default
while nothing was bound, or the pipeline given to `otel.SetTracerProvider`. -/
inductive TracerSource where
  | unset
  | sdk (tp : TracerProvider)
  deriving DecidableEq

/-- What the process-wide meter slot of package `otel` holds: the built-in default
while nothing was bound, a pipeline of the OpenTelemetry SDK (what this package
binds), or a meter provider of some other make that the host program bound. -/
inductive MeterSource where
  | unset
  | sdk (mp : MeterProvider)
  | other (id : Nat)
  deriving DecidableEq

/-- A `trace.Tracer`: the source it was taken from and the name that scopes it. -/
structure Tracer where
  source : TracerSource
  name : String
  deriving DecidableEq

/-- A `metric.Meter`: the source it was taken from and the name that scopes it. -/
structure Meter where
  source : MeterSource
  name : String
  deriving DecidableEq

/-- Options of the instrument constructors of a meter. -/
inductive InstrumentOption where
  | WithDescription (d : String)
  | WithUnit (u : String)
  deriving DecidableEq

/-- A non-nil `metric.Int64Counter`: a counter of some meter, with its name and options. -/
structure Int64Counter where
  meter : Meter
  name : String
  opts : List InstrumentOption
  deriving DecidableEq

/-- A non-nil `metric.Float64Histogram`. -/
structure Float64Histogram where
  meter : Meter
  name : String
  opts : List InstrumentOption
  deriving DecidableEq

/-! ## The calls made on the SDK and the state of the process -/

/-- One call of the package on the SDK, with its arguments and what the SDK answered. -/
inductive Call where
  | stdouttraceNew (opts : List StdoutTraceOption) (err : Option Err)
  | stdoutmetricNew (opts : List StdoutMetricOption) (err : Option Err)
  | tracerProviderShutdown (tp : TracerProvider) (ctx : Context) (err : Option Err)
  | meterProviderShutdown (mp : MeterProvider) (ctx : Context) (err : Option Err)
  | int64Counter (m : Meter) (name : String) (opts : List InstrumentOption)
      (res : Option Int64Counter × Option Err)
  | float64Histogram (m : Meter) (name : String) (opts : List InstrumentOption)
      (res : Option Float64Histogram × Option Err)
  | add (c : Int64Counter) (ctx : Context) (incr : Int)
  | record (h : Float64Histogram) (ctx : Context) (value : Float64)
  deriving DecidableEq

/-- What a metrics pipeline of the SDK receives: an increment of one of its counters,
an observation of one of its histograms (each known by the name that scopes the
meter, the name of the instrument and its options), or the flush of a successful
shutdown. -/
inductive PipelineEvent where
  | counted (mp : MeterProvider) (scope : String) (name : String)
      (opts : List InstrumentOption) (incr : Int)
  | observed (mp : MeterProvider) (scope : String) (name : String)
      (opts : List InstrumentOption) (value : Float64)
  | flushed (mp : MeterProvider)
  deriving DecidableEq

/-- What lies behind the OpenTelemetry API as the package sees it: for each call that
returns something, the answer, which may depend on every call made before (the first
argument).  For the instrument constructors the answer of a meter of OpenTelemetry
itself only decides the error: see `Meter.Int64Counter`. -/
structure SDK where
  stdouttraceNew : List Call → List StdoutTraceOption → Option Err
  stdoutmetricNew : List Call → List StdoutMetricOption → Option Err
  tracerProviderShutdown : List Call → TracerProvider → Context → Option Err
  meterProviderShutdown : List Call → MeterProvider → Context → Option Err
  int64Counter : List Call → Meter → String → List InstrumentOption →
    Option Int64Counter × Option Err
  float64Histogram : List Call → Meter → String → List InstrumentOption →
    Option Float64Histogram × Option Err

/-- The state of the process: the two global slots of package `otel`, the calls made
on the SDK so far, oldest first, and, on the side of the SDK, the meter provider that
was bound first (the one the built-in default delegates to) and what reached the
metrics pipelines so far. -/
structure World where
  tracerProvider : TracerSource
  meterProvider : MeterSource
  log : List Call
  meterDelegate : Option MeterSource
  pipeline : List PipelineEvent

/-- A process in which nothing was bound and nothing was called yet. -/
def World.init : World := ⟨TracerSource.unset, MeterSource.unset, [], none, []⟩

/-- Modelled from the spec: the pipeline an instrument of the meter `m` records into,
absent from the sources: the pipeline the meter was taken from; for a meter of the
built-in default, the pipeline bound first, once one is bound (until then what is
recorded is dropped); none for a meter of another make. -/
def World.pipelineOf (w : World) (m : Meter) : Option MeterProvider :=
  match m.source with
  | MeterSource.sdk mp => some mp
  | MeterSource.unset =>
    match w.meterDelegate with
    | some (MeterSource.sdk mp) => some mp
    | _ => none
  | MeterSource.other _ => none

/-- Modelled from the spec: what a call makes reach a metrics pipeline, absent from
the sources. -/
def World.reaches (w : World) (c : Call) : List PipelineEvent :=
  match c with
  | Call.add i _ incr =>
    match w.pipelineOf i.meter with
    | some mp => [PipelineEvent.counted mp i.meter.name i.name i.opts incr]
    | none => []
  | Call.record h _ value =>
    match w.pipelineOf h.meter with
    | some mp => [PipelineEvent.observed mp h.meter.name h.name h.opts value]
    | none => []
  | Call.meterProviderShutdown mp _ none => [PipelineEvent.flushed mp]
  | _ => []

/-- Appends a call to the log, and what it makes reach a pipeline to the pipelines. -/
def World.called (w : World) (c : Call) : World :=
  { w with log := w.log ++ [c], pipeline := w.pipeline ++ w.reaches c }

/-! ## The SDK entry points the package calls -/

/-- The call `stdouttrace.New(opts...)`. -/
def stdouttrace.New (sdk : SDK) (opts : List StdoutTraceOption) (w : World) :
    Except Err TraceExporter × World :=
  match sdk.stdouttraceNew w.log opts with
  | some err => (Except.error err, w.called (Call.stdouttraceNew opts (some err)))
  | none => (Except.ok ⟨w.log.length, opts⟩, w.called (Call.stdouttraceNew opts none))

/-- The call `stdoutmetric.New(opts...)`. -/
def stdoutmetric.New (sdk : SDK) (opts : List StdoutMetricOption) (w : World) :
    Except Err MetricExporter × World :=
  match sdk.stdoutmetricNew w.log opts with
  | some err => (Except.error err, w.called (Call.stdoutmetricNew opts (some err)))
  | none => (Except.ok ⟨w.log.length, opts⟩, w.called (Call.stdoutmetricNew opts none))

/-- The call `sdktrace.NewTracerProvider(opts...)`. -/
def sdktrace.NewTracerProvider (opts : List TracerProviderOption) : TracerProvider := ⟨opts⟩

/-- The call `sdkmetric.NewMeterProvider(opts...)`. -/
def sdkmetric.NewMeterProvider (opts : List MeterProviderOption) : MeterProvider := ⟨opts⟩

/-- The call `otel.SetTracerProvider(tp)`. -/
def otel.SetTracerProvider (tp : TracerProvider) (w : World) : World :=
  { w with tracerProvider := TracerSource.sdk tp }

/-- The call `otel.SetMeterProvider(mp)`: the first provider ever bound also becomes
the one the built-in default delegates to. -/
def otel.SetMeterProvider (mp : MeterProvider) (w : World) : World :=
  { w with
    meterProvider := MeterSource.sdk mp
    meterDelegate :=
      match w.meterDelegate with
      | none => some (MeterSource.sdk mp)
      | some d => some d }

/-- The call `otel.Tracer(name)`: the tracer, never nil, of whatever is bound in the
tracer slot at the time of the call. -/
def otel.Tracer (name : String) (w : World) : Tracer := ⟨w.tracerProvider, name⟩

/-- The call `otel.Meter(name)`: the meter, never nil, of whatever is bound in the
meter slot at the time of the call. -/
def otel.Meter (name : String) (w : World) : Meter := ⟨w.meterProvider, name⟩

/-- The method `(*sdktrace.TracerProvider).Shutdown(ctx)`. -/
def TracerProvider.Shutdown (sdk : SDK) (tp : TracerProvider) (ctx : Context) (w : World) :
    Option Err × World :=
  let err := sdk.tracerProviderShutdown w.log tp ctx
  (err, w.called (Call.tracerProviderShutdown tp ctx err))

/-- The method `(*sdkmetric.MeterProvider).Shutdown(ctx)`. -/
def MeterProvider.Shutdown (sdk : SDK) (mp : MeterProvider) (ctx : Context) (w : World) :
    Option Err × World :=
  let err := sdk.meterProviderShutdown w.log mp ctx
  (err, w.called (Call.meterProviderShutdown mp ctx err))

/-! ## provider.go -/

/-- The struct `Provider` of provider.go. -/
structure Provider where
  tracerProvider : TracerProvider
  meterProvider : MeterProvider
  traceExporter : TraceExporter
  metricExporter : MetricExporter
  deriving DecidableEq

/-- The function `NewProvider` of provider.go: `(nil, err)` is `Except.error err`. -/
def NewProvider (sdk : SDK) (w : World) : Except Err Provider × World :=
  match stdouttrace.New sdk [StdoutTraceOption.WithPrettyPrint] w with
  | (Except.error err, w1) => (Except.error err, w1)
  | (Except.ok traceExporter, w1) =>
    let tracerProvider := sdktrace.NewTracerProvider
      [TracerProviderOption.WithSampler Sampler.AlwaysSample,
       TracerProviderOption.WithBatcher traceExporter]
    let w2 := otel.SetTracerProvider tracerProvider w1
    match stdoutmetric.New sdk [] w2 with
    | (Except.error err, w3) => (Except.error err, w3)
    | (Except.ok metricExporter, w3) =>
      let meterProvider := sdkmetric.NewMeterProvider
        [MeterProviderOption.WithReader (Reader.PeriodicReader metricExporter)]
      let w4 := otel.SetMeterProvider meterProvider w3
      (Except.ok ⟨tracerProvider, meterProvider, traceExporter, metricExporter⟩, w4)

/-- The method `(*Provider).Shutdown` of provider.go. -/
def Provider.Shutdown (sdk : SDK) (p : Provider) (ctx : Context) (w : World) :
    Option Err × World :=
  let r1 := TracerProvider.Shutdown sdk p.tracerProvider ctx w
  let err1 := r1.1
  let r2 := MeterProvider.Shutdown sdk p.meterProvider ctx r1.2
  let err2 := r2.1
  match err1 with
  | some e => (some e, r2.2)
  | none => (err2, r2.2)

/-- The function `NewProviderWithWriters` of provider.go. -/
def NewProviderWithWriters (sdk : SDK) (traceWriter metricWriter : Writer) (w : World) :
    Except Err Provider × World :=
  match stdouttrace.New sdk
      [StdoutTraceOption.WithPrettyPrint, StdoutTraceOption.WithWriter traceWriter] w with
  | (Except.error err, w1) => (Except.error err, w1)
  | (Except.ok traceExporter, w1) =>
    let tracerProvider := sdktrace.NewTracerProvider
      [TracerProviderOption.WithSampler Sampler.AlwaysSample,
       TracerProviderOption.WithBatcher traceExporter]
    let w2 := otel.SetTracerProvider tracerProvider w1
    match stdoutmetric.New sdk [StdoutMetricOption.WithWriter metricWriter] w2 with
    | (Except.error err, w3) => (Except.error err, w3)
    | (Except.ok metricExporter, w3) =>
      let meterProvider := sdkmetric.NewMeterProvider
        [MeterProviderOption.WithReader (Reader.PeriodicReader metricExporter)]
      let w4 := otel.SetMeterProvider meterProvider w3
      (Except.ok ⟨tracerProvider, meterProvider, traceExporter, metricExporter⟩, w4)

/-! ## telemetry.go -/

/-- The method `Int64Counter` of a `metric.Meter`, which returns an instrument and an
error.  A meter of OpenTelemetry itself (of the built-in default or of an SDK
pipeline) returns the instrument asked for, never nil, also when it reports an error;
a meter of another make may return anything, a nil instrument included. -/
def Meter.Int64Counter (sdk : SDK) (m : Meter) (name : String) (opts : List InstrumentOption)
    (w : World) : (Option Asoos.Int64Counter × Option Err) × World :=
  let ans := sdk.int64Counter w.log m name opts
  let res : Option Asoos.Int64Counter × Option Err :=
    match m.source with
    | MeterSource.other _ => ans
    | _ => (some ⟨m, name, opts⟩, ans.2)
  (res, w.called (Call.int64Counter m name opts res))

/-- The method `Float64Histogram` of a `metric.Meter`, like `Meter.Int64Counter`. -/
def Meter.Float64Histogram (sdk : SDK) (m : Meter) (name : String)
    (opts : List InstrumentOption) (w : World) :
    (Option Asoos.Float64Histogram × Option Err) × World :=
  let ans := sdk.float64Histogram w.log m name opts
  let res : Option Asoos.Float64Histogram × Option Err :=
    match m.source with
    | MeterSource.other _ => ans
    | _ => (some ⟨m, name, opts⟩, ans.2)
  (res, w.called (Call.float64Histogram m name opts res))

/-- A Go run-time panic. -/
inductive GoPanic where
  | nilDereference
  deriving DecidableEq

/-- The method `Add` called on a value of interface type `metric.Int64Counter`: calling
a method on a nil interface value panics, otherwise the SDK receives the call. -/
def Int64Counter.Add (c : Option Int64Counter) (ctx : Context) (incr : Int) (w : World) :
    Except GoPanic World :=
  match c with
  | none => Except.error GoPanic.nilDereference
  | some i => Except.ok (w.called (Call.add i ctx incr))

/-- The method `Record` called on a value of interface type `metric.Float64Histogram`. -/
def Float64Histogram.Record (h : Option Float64Histogram) (ctx : Context) (value : Float64)
    (w : World) : Except GoPanic World :=
  match h with
  | none => Except.error GoPanic.nilDereference
  | some i => Except.ok (w.called (Call.record i ctx value))

/-- The struct `Telemetry` of telemetry.go.  Every field but the name has an interface
type, whose zero value is nil (`none`). -/
structure Telemetry where
  serviceName : String
  tracer : Option Tracer
  meter : Option Meter
  requestCounter : Option Int64Counter
  requestDuration : Option Float64Histogram
  errorCounter : Option Int64Counter
  knowledgeCounter : Option Int64Counter
  deriving DecidableEq

/-- The function `NewTelemetry` of telemetry.go.  It returns a `*Telemetry`, here
`Option Telemetry`; the second result of every instrument constructor is dropped. -/
def NewTelemetry (sdk : SDK) (serviceName : String) (w : World) : Option Telemetry × World :=
  let tracer := otel.Tracer serviceName w
  let meter := otel.Meter serviceName w
  let r1 := Meter.Int64Counter sdk meter "agent.requests"
    [InstrumentOption.WithDescription "Number of requests processed"] w
  let requestCounter := r1.1.1
  let r2 := Meter.Float64Histogram sdk meter "agent.request.duration"
    [InstrumentOption.WithDescription "Duration of request processing",
     InstrumentOption.WithUnit "ms"] r1.2
  let requestDuration := r2.1.1
  let r3 := Meter.Int64Counter sdk meter "agent.errors"
    [InstrumentOption.WithDescription "Number of errors"] r2.2
  let errorCounter := r3.1.1
  let r4 := Meter.Int64Counter sdk meter "agent.knowledge.access"
    [InstrumentOption.WithDescription "Number of knowledge store accesses"] r3.2
  let knowledgeCounter := r4.1.1
  (some ⟨serviceName, some tracer, some meter, requestCounter, requestDuration,
    errorCounter, knowledgeCounter⟩, r4.2)

/-- The method `(*Telemetry).RecordRequest`: reading a field through a nil receiver
panics. -/
def Telemetry.RecordRequest (t : Option Telemetry) (ctx : Context) (w : World) :
    Except GoPanic World :=
  match t with
  | none => Except.error GoPanic.nilDereference
  | some t => Int64Counter.Add t.requestCounter ctx 1 w

/-- The method `(*Telemetry).RecordError`. -/
def Telemetry.RecordError (t : Option Telemetry) (ctx : Context) (w : World) :
    Except GoPanic World :=
  match t with
  | none => Except.error GoPanic.nilDereference
  | some t => Int64Counter.Add t.errorCounter ctx 1 w

/-- The method `(*Telemetry).RecordKnowledgeAccess`. -/
def Telemetry.RecordKnowledgeAccess (t : Option Telemetry) (ctx : Context) (w : World) :
    Except GoPanic World :=
  match t with
  | none => Except.error GoPanic.nilDereference
  | some t => Int64Counter.Add t.knowledgeCounter ctx 1 w

/-- The method `(*Telemetry).RecordDuration`. -/
def Telemetry.RecordDuration (t : Option Telemetry) (ctx : Context) (durationMs : Float64)
    (w : World) : Except GoPanic World :=
  match t with
  | none => Except.error GoPanic.nilDereference
  | some t => Float64Histogram.Record t.requestDuration ctx durationMs w

/-! ## Observations on the call log -/

/-- The value of a monotonic counter after the calls of `log`: the sum of what was
added to it. -/
def counterValue (log : List Call) (c : Int64Counter) : Int :=
  (log.filterMap fun call =>
    match call with
    | Call.add c1 _ incr => if c1 = c then some incr else none
    | _ => none).sum

/-- The observations a histogram received in the calls of `log`, oldest first. -/
def observations (log : List Call) (h : Float64Histogram) : List Float64 :=
  log.filterMap fun call =>
    match call with
    | Call.record h1 _ v => if h1 = h then some v else none
    | _ => none

/-- One record operation of a caller, for sequences of record calls. -/
inductive RecordOp where
  | request
  | error
  | knowledgeAccess
  | duration (durationMs : Float64)
  deriving DecidableEq

/-- Performs one record operation on a recorder. -/
def RecordOp.run (t : Option Telemetry) (ctx : Context) (op : RecordOp) (w : World) :
    Except GoPanic World :=
  match op with
  | RecordOp.request => Telemetry.RecordRequest t ctx w
  | RecordOp.error => Telemetry.RecordError t ctx w
  | RecordOp.knowledgeAccess => Telemetry.RecordKnowledgeAccess t ctx w
  | RecordOp.duration d => Telemetry.RecordDuration t ctx d w

/-- Performs a sequence of record operations, each with its own context, stopping at
the first panic. -/
def runOps (t : Option Telemetry) : List (Context × RecordOp) → World → Except GoPanic World
  | [], w => Except.ok w
  | (ctx, op) :: ops, w =>
    match RecordOp.run t ctx op w with
    | Except.error e => Except.error e
    | Except.ok w1 => runOps t ops w1

/-! ## The metric sink

The aggregation and the export of a metrics pipeline happen inside the SDK, which is
not in the repository.  What follows is the flush of a pipeline at its shutdown, read
off what reached the pipeline.  The export on the periodic timer is left out: it can
only add earlier snapshots of instruments that have recorded something. -/

/-- One entry of a metric sink: a counter with its value or a histogram with its
observations, under the name that scopes its meter and its own name. -/
inductive MetricEntry where
  | sum (scope : String) (name : String) (value : Int)
  | histogram (scope : String) (name : String) (observed : List Float64)
  deriving DecidableEq

/-- Modelled from the spec: the sink of a metric exporter, absent from the sources:
the standard output stream unless a caller-supplied sink was given. -/
def MetricExporter.writer (e : MetricExporter) : Writer :=
  e.opts.foldl (fun _ o => match o with | StdoutMetricOption.WithWriter w => w) Writer.stdout

/-- Modelled from the spec: the sinks a metrics pipeline exports to, absent from the
sources: those of the exporters behind its readers. -/
def MeterProvider.writers (mp : MeterProvider) : List Writer :=
  mp.opts.map fun o => match o with
    | MeterProviderOption.WithReader (Reader.PeriodicReader e) => e.writer

/-- Modelled from the spec: the counters of the pipeline `mp` that were incremented at
least once in `seen`, absent from the sources. -/
def countedStreams (mp : MeterProvider) (seen : List PipelineEvent) :
    List (String × String × List InstrumentOption) :=
  (seen.filterMap fun e =>
    match e with
    | PipelineEvent.counted mp1 scope name opts _ =>
      if mp1 = mp then some (scope, name, opts) else none
    | _ => none).dedup

/-- Modelled from the spec: the histograms of the pipeline `mp` that received at least
one observation in `seen`, absent from the sources. -/
def observedStreams (mp : MeterProvider) (seen : List PipelineEvent) :
    List (String × String × List InstrumentOption) :=
  (seen.filterMap fun e =>
    match e with
    | PipelineEvent.observed mp1 scope name opts _ =>
      if mp1 = mp then some (scope, name, opts) else none
    | _ => none).dedup

/-- Modelled from the spec: the value of a counter of the pipeline `mp`, absent from
the sources: the sum of the increments that reached it. -/
def streamSum (mp : MeterProvider) (key : String × String × List InstrumentOption)
    (seen : List PipelineEvent) : Int :=
  (seen.filterMap fun e =>
    match e with
    | PipelineEvent.counted mp1 scope name opts incr =>
      if mp1 = mp ∧ (scope, name, opts) = key then some incr else none
    | _ => none).sum

/-- Modelled from the spec: the observations of a histogram of the pipeline `mp`,
absent from the sources, oldest first. -/
def streamObservations (mp : MeterProvider) (key : String × String × List InstrumentOption)
    (seen : List PipelineEvent) : List Float64 :=
  seen.filterMap fun e =>
    match e with
    | PipelineEvent.observed mp1 scope name opts value =>
      if mp1 = mp ∧ (scope, name, opts) = key then some value else none
    | _ => none

/-- Modelled from the spec: the flush of a metrics pipeline, absent from the sources:
one entry for each instrument of the pipeline that has recorded something, a counter
with the sum of what was added to it and a histogram with the observations recorded
into it; an instrument that never recorded is left out. -/
def flush (mp : MeterProvider) (seen : List PipelineEvent) : List MetricEntry :=
  (countedStreams mp seen).map (fun k => MetricEntry.sum k.1 k.2.1 (streamSum mp k seen))
  ++ (observedStreams mp seen).map
      (fun k => MetricEntry.histogram k.1 k.2.1 (streamObservations mp k seen))

/-- Modelled from the spec: the entries that shutdown flushes write into the sink
`wr`, absent from the sources, for the events `rest` that follow the events `seen`. -/
def flushedFrom (wr : Writer) : List PipelineEvent → List PipelineEvent → List MetricEntry
  | _, [] => []
  | seen, e :: rest =>
    (match e with
     | PipelineEvent.flushed mp => if wr ∈ mp.writers then flush mp seen else []
     | _ => [])
    ++ flushedFrom wr (seen ++ [e]) rest

/-- Modelled from the spec: what the flushes at shutdown have written into the metric
sink `wr` in the process `w`, absent from the sources (the export is done by the
SDK).  The sink holds these entries, and besides them what the timer exported. -/
def metricSink (wr : Writer) (w : World) : List MetricEntry :=
  flushedFrom wr [] w.pipeline

/-! ## cmd/main.go -/

/-- A flag defined on a `flag.FlagSet` with `String(name, value, usage)`. -/
structure FlagDef where
  name : String
  value : String
  usage : String
  deriving DecidableEq

/-- What lies outside the telemetry package for the command: the SDK, the standard
library's flag parser and number parser, and the formatting verb `%.2f`. -/
structure Env where
  sdk : SDK
  /-- The call `Parse` on a `flag.NewFlagSet(name, flag.ExitOnError)` with the given
  flags defined: the value of each flag, or the status the parser exits the process with. -/
  flagParse : String → List FlagDef → List String → Except Nat (String → String)
  /-- The call `strconv.ParseFloat(s, 64)`. -/
  parseFloat : String → Except Err Float64
  /-- The verb `%.2f` of package `fmt`. -/
  format2f : Float64 → String

/-- Where the process stands: still running, returned from `main`, ended by
`os.Exit(code)`, ended by a panic, or blocked on `<-ctx.Done()` with the signal
handler waiting to shut `provider` down. -/
inductive Status where
  | running
  | returned
  | exited (code : Nat)
  | panicked
  | blocked (provider : Provider)
  deriving DecidableEq

/-- The process of the command: the state that the calls into the telemetry package
act on, the text printed and the status. -/
structure Proc where
  world : World
  stdout : List String
  status : Status

/-- The flags `startTelemetry` defines. -/
def startFlags : List FlagDef :=
  [⟨"service", "aixtiv-cli", "Service name for telemetry"⟩,
   ⟨"log", "", "Log file path for telemetry output"⟩]

/-- The flags `recordRequest` defines. -/
def recordRequestFlags : List FlagDef :=
  [⟨"context-id", "", "Context ID for correlation"⟩,
   ⟨"command", "unknown", "Command name"⟩]

/-- The flags `recordError` defines. -/
def recordErrorFlags : List FlagDef :=
  [⟨"context-id", "", "Context ID for correlation"⟩,
   ⟨"command", "unknown", "Command name"⟩,
   ⟨"error", "", "Error message"⟩]

/-- The flags `recordKnowledgeAccess` defines. -/
def recordKnowledgeFlags : List FlagDef :=
  [⟨"context-id", "", "Context ID for correlation"⟩,
   ⟨"type", "general", "Knowledge type"⟩]

/-- The flags `recordDuration` defines. -/
def recordDurationFlags : List FlagDef :=
  [⟨"context-id", "", "Context ID for correlation"⟩,
   ⟨"command", "unknown", "Command name"⟩,
   ⟨"duration", "0", "Duration in milliseconds"⟩]

/-- The flags `shutdownTelemetry` defines. -/
def shutdownFlags : List FlagDef :=
  [⟨"context-id", "", "Context ID for correlation"⟩]

/-- The function `startTelemetry` of main.go, up to the point where it blocks. -/
def startTelemetry (env : Env) (osArgs : List String) (p : Proc) : Proc :=
  match env.flagParse "start" startFlags (osArgs.drop 2) with
  | Except.error code => { p with status := Status.exited code }
  | Except.ok flags =>
    let serviceName := flags "service"
    let logFile := flags "log"
    match NewProvider env.sdk p.world with
    | (Except.error err, w1) =>
      { world := w1
        stdout := p.stdout ++ ["Failed to create telemetry provider: " ++ err.msg ++ "\n"]
        status := Status.exited 1 }
    | (Except.ok provider, w1) =>
      let r := NewTelemetry env.sdk serviceName w1
      { world := r.2
        stdout := p.stdout ++ ["Telemetry started for service: " ++ serviceName ++ "\n"]
          ++ (if logFile ≠ "" then ["Logging to: " ++ logFile ++ "\n"] else [])
        status := Status.blocked provider }

/-- The function `recordRequest` of main.go. -/
def recordRequest (env : Env) (osArgs : List String) (p : Proc) : Proc :=
  match env.flagParse "record-request" recordRequestFlags (osArgs.drop 2) with
  | Except.error code => { p with status := Status.exited code }
  | Except.ok flags =>
    let contextID := flags "context-id"
    let commandName := flags "command"
    let r := NewTelemetry env.sdk "aixtiv-cli" p.world
    match Telemetry.RecordRequest r.1 Context.Background r.2 with
    | Except.error _ => { world := r.2, stdout := p.stdout, status := Status.panicked }
    | Except.ok w2 =>
      { world := w2
        stdout := p.stdout ++ ["Recorded request for context: " ++ contextID
          ++ ", command: " ++ commandName ++ "\n"]
        status := Status.returned }

/-- The function `recordError` of main.go. -/
def recordError (env : Env) (osArgs : List String) (p : Proc) : Proc :=
  match env.flagParse "record-error" recordErrorFlags (osArgs.drop 2) with
  | Except.error code => { p with status := Status.exited code }
  | Except.ok flags =>
    let contextID := flags "context-id"
    let commandName := flags "command"
    let errorMsg := flags "error"
    let r := NewTelemetry env.sdk "aixtiv-cli" p.world
    match Telemetry.RecordError r.1 Context.Background r.2 with
    | Except.error _ => { world := r.2, stdout := p.stdout, status := Status.panicked }
    | Except.ok w2 =>
      { world := w2
        stdout := p.stdout ++ ["Recorded error for context: " ++ contextID
          ++ ", command: " ++ commandName ++ ", error: " ++ errorMsg ++ "\n"]
        status := Status.returned }

/-- The function `recordKnowledgeAccess` of main.go. -/
def recordKnowledgeAccess (env : Env) (osArgs : List String) (p : Proc) : Proc :=
  match env.flagParse "record-knowledge" recordKnowledgeFlags (osArgs.drop 2) with
  | Except.error code => { p with status := Status.exited code }
  | Except.ok flags =>
    let contextID := flags "context-id"
    let knowledgeType := flags "type"
    let r := NewTelemetry env.sdk "aixtiv-cli" p.world
    match Telemetry.RecordKnowledgeAccess r.1 Context.Background r.2 with
    | Except.error _ => { world := r.2, stdout := p.stdout, status := Status.panicked }
    | Except.ok w2 =>
      { world := w2
        stdout := p.stdout ++ ["Recorded knowledge access for context: " ++ contextID
          ++ ", type: " ++ knowledgeType ++ "\n"]
        status := Status.returned }

/-- The function `recordDuration` of main.go. -/
def recordDuration (env : Env) (osArgs : List String) (p : Proc) : Proc :=
  match env.flagParse "record-duration" recordDurationFlags (osArgs.drop 2) with
  | Except.error code => { p with status := Status.exited code }
  | Except.ok flags =>
    let contextID := flags "context-id"
    let commandName := flags "command"
    let duration := flags "duration"
    match env.parseFloat duration with
    | Except.error _ =>
      { p with
        stdout := p.stdout ++ ["Invalid duration: " ++ duration ++ "\n"]
        status := Status.exited 1 }
    | Except.ok durationMs =>
      let r := NewTelemetry env.sdk "aixtiv-cli" p.world
      match Telemetry.RecordDuration r.1 Context.Background durationMs r.2 with
      | Except.error _ => { world := r.2, stdout := p.stdout, status := Status.panicked }
      | Except.ok w2 =>
        { world := w2
          stdout := p.stdout ++ ["Recorded duration for context: " ++ contextID
            ++ ", command: " ++ commandName ++ ", duration: " ++ env.format2f durationMs
            ++ "ms\n"]
          status := Status.returned }

/-- The function `shutdownTelemetry` of main.go. -/
def shutdownTelemetry (env : Env) (osArgs : List String) (p : Proc) : Proc :=
  match env.flagParse "shutdown" shutdownFlags (osArgs.drop 2) with
  | Except.error code => { p with status := Status.exited code }
  | Except.ok flags =>
    let contextID := flags "context-id"
    { p with
      stdout := p.stdout ++ ["Telemetry shutdown requested for context: " ++ contextID ++ "\n"]
      status := Status.returned }

/-- The function `main` of main.go, run on the argument vector `os.Args`. -/
def main (env : Env) (osArgs : List String) (w : World) : Proc :=
  let p : Proc := ⟨w, [], Status.running⟩
  if osArgs.length < 2 then
    { p with
      stdout := ["Usage: telemetry-agent <command> [options]\n",
        "Commands: start, record-request, record-error, record-knowledge, " ++
        "record-duration, shutdown\n"]
      status := Status.exited 1 }
  else
    let command := osArgs.getD 1 ""
    if command = "start" then startTelemetry env osArgs p
    else if command = "record-request" then recordRequest env osArgs p
    else if command = "record-error" then recordError env osArgs p
    else if command = "record-knowledge" then recordKnowledgeAccess env osArgs p
    else if command = "record-duration" then recordDuration env osArgs p
    else if command = "shutdown" then shutdownTelemetry env osArgs p
    else
      { p with
        stdout := ["Unknown command: " ++ command ++ "\n"]
        status := Status.exited 1 }

/-! ## Statements shared by the two constructors, and concrete collaborators -/

/-- What claim C3 says of a constructor that gives `tOpts` to `stdouttrace.New` and
`mOpts` to `stdoutmetric.New`, is run in `w` and ends with `res`.  The metric
exporter is only asked for once the trace exporter exists, after one more call. -/
def ConstructorContract (sdk : SDK) (tOpts : List StdoutTraceOption)
    (mOpts : List StdoutMetricOption) (w : World) (res : Except Err Provider × World) : Prop :=
  let te := sdk.stdouttraceNew w.log tOpts
  let me := sdk.stdoutmetricNew (w.log ++ [Call.stdouttraceNew tOpts none]) mOpts
  let tp : TracerProvider :=
    ⟨[TracerProviderOption.WithSampler Sampler.AlwaysSample,
      TracerProviderOption.WithBatcher ⟨w.log.length, tOpts⟩]⟩
  ((∃ e, res.1 = Except.error e) ↔ (te ≠ none ∨ (te = none ∧ me ≠ none))) ∧
  (∀ e, te = some e →
    res.1 = Except.error e ∧
    res.2.tracerProvider = w.tracerProvider ∧ res.2.meterProvider = w.meterProvider) ∧
  (∀ e, te = none → me = some e →
    res.1 = Except.error e ∧
    res.2.tracerProvider = TracerSource.sdk tp ∧ res.2.meterProvider = w.meterProvider) ∧
  (te = none → me = none →
    ∃ p, res.1 = Except.ok p ∧ p.tracerProvider = tp ∧
      res.2.tracerProvider = TracerSource.sdk p.tracerProvider ∧
      res.2.meterProvider = MeterSource.sdk p.meterProvider)

/-- An SDK on which every call succeeds and a meter hands out the instrument it was
asked for. -/
def sdkOK : SDK where
  stdouttraceNew := fun _ _ => none
  stdoutmetricNew := fun _ _ => none
  tracerProviderShutdown := fun _ _ _ => none
  meterProviderShutdown := fun _ _ _ => none
  int64Counter := fun _ m name opts => (some ⟨m, name, opts⟩, none)
  float64Histogram := fun _ m name opts => (some ⟨m, name, opts⟩, none)

/-- An SDK like `sdkOK` on which both pipelines fail to shut down. -/
def sdkShutdownFails : SDK :=
  { sdkOK with
    tracerProviderShutdown := fun _ _ _ => some ⟨"trace shutdown failed"⟩
    meterProviderShutdown := fun _ _ _ => some ⟨"metric shutdown failed"⟩ }

/-- An SDK like `sdkOK` on which the metric exporter cannot be constructed. -/
def sdkNoMetricExporter : SDK :=
  { sdkOK with stdoutmetricNew := fun _ _ => some ⟨"metric exporter unavailable"⟩ }

/-- The recorder of service `svc-a` that `NewTelemetry` builds on `sdkOK` in a fresh
process. -/
def recorderA : Telemetry :=
  { serviceName := "svc-a"
    tracer := some ⟨TracerSource.unset, "svc-a"⟩
    meter := some ⟨MeterSource.unset, "svc-a"⟩
    requestCounter := some ⟨⟨MeterSource.unset, "svc-a"⟩, "agent.requests",
      [InstrumentOption.WithDescription "Number of requests processed"]⟩
    requestDuration := some ⟨⟨MeterSource.unset, "svc-a"⟩, "agent.request.duration",
      [InstrumentOption.WithDescription "Duration of request processing",
       InstrumentOption.WithUnit "ms"]⟩
    errorCounter := some ⟨⟨MeterSource.unset, "svc-a"⟩, "agent.errors",
      [InstrumentOption.WithDescription "Number of errors"]⟩
    knowledgeCounter := some ⟨⟨MeterSource.unset, "svc-a"⟩, "agent.knowledge.access",
      [InstrumentOption.WithDescription "Number of knowledge store accesses"]⟩ }

/-- Answers like those of `sdkOK`, except that a creation of an instrument is answered
with a nil instrument and an error.  Meters of OpenTelemetry itself do not pass a nil
instrument on (see `Meter.Int64Counter`); a meter of another make does. -/
def sdkNilInstruments : SDK :=
  { sdkOK with
    int64Counter := fun _ _ _ _ => (none, some ⟨"instrument creation failed"⟩)
    float64Histogram := fun _ _ _ _ => (none, some ⟨"instrument creation failed"⟩) }

/-- A process in which the host program bound a meter provider of its own with
`otel.SetMeterProvider`, and nothing else happened. -/
def World.hostBound : World :=
  ⟨TracerSource.unset, MeterSource.other 0, [], some (MeterSource.other 0), []⟩

/-- The global meter slot holds what the claims name: nothing (the built-in default)
or a pipeline of the OpenTelemetry SDK, such as a Provider of this package binds. -/
def World.OpenTelemetryMeter (w : World) : Prop :=
  w.meterProvider = MeterSource.unset ∨ ∃ mp, w.meterProvider = MeterSource.sdk mp

/-- The pipeline that an event of a metrics pipeline belongs to. -/
def PipelineEvent.target (e : PipelineEvent) : MeterProvider :=
  match e with
  | PipelineEvent.counted mp _ _ _ _ => mp
  | PipelineEvent.observed mp _ _ _ _ => mp
  | PipelineEvent.flushed mp => mp

/-- Whether a `float64` is a finite number. -/
def Float64.isFinite (x : Float64) : Bool :=
  match x with
  | Float64.finite _ => true
  | _ => false

/-- Answers like those of `sdkOK`, except that the shutdown of a metrics pipeline
fails once a value that is not a finite number was recorded: the exporter cannot
write such a value. -/
def sdkFiniteOnly : SDK :=
  { sdkOK with
    meterProviderShutdown := fun log _ _ =>
      if log.any (fun c => match c with
        | Call.record _ _ v => !v.isFinite
        | _ => false)
      then some ⟨"unsupported value"⟩ else none }

/-- The kind of instrument a meter is asked for. -/
inductive InstrumentKind where
  | counter
  | histogram
  deriving DecidableEq

/-- The unit given with the options of an instrument: the argument of the last
`WithUnit`, or nothing when no `WithUnit` is among them. -/
def requestedUnit (opts : List InstrumentOption) : Option String :=
  opts.foldl (fun u o => match o with
    | InstrumentOption.WithUnit s => some s
    | InstrumentOption.WithDescription _ => u) none

/-- The instrument a call asks a meter for, if the call is of that sort: the kind, the
name that scopes the meter, the name of the instrument and its unit. -/
def Call.instrumentRequest (c : Call) :
    Option (InstrumentKind × String × String × Option String) :=
  match c with
  | Call.int64Counter m name opts _ =>
    some (InstrumentKind.counter, m.name, name, requestedUnit opts)
  | Call.float64Histogram m name opts _ =>
    some (InstrumentKind.histogram, m.name, name, requestedUnit opts)
  | _ => none

/-- The provider that `NewProviderWithWriters` builds on `sdkOK` in a fresh process
for the sinks 1 and 2. -/
def providerA : Provider :=
  { tracerProvider := ⟨[TracerProviderOption.WithSampler Sampler.AlwaysSample,
      TracerProviderOption.WithBatcher ⟨0, [StdoutTraceOption.WithPrettyPrint,
        StdoutTraceOption.WithWriter (Writer.sink 1)]⟩]⟩
    meterProvider := ⟨[MeterProviderOption.WithReader
      (Reader.PeriodicReader ⟨1, [StdoutMetricOption.WithWriter (Writer.sink 2)]⟩)]⟩
    traceExporter := ⟨0, [StdoutTraceOption.WithPrettyPrint,
      StdoutTraceOption.WithWriter (Writer.sink 1)]⟩
    metricExporter := ⟨1, [StdoutMetricOption.WithWriter (Writer.sink 2)]⟩ }

/-- An environment of the command in which the SDK is `sdkOK`, an empty list of flag
arguments gives every flag its default value (anything else makes the parser exit
with status 2), and `0` and `42.5` are the numbers that parse. -/
def envOK : Env where
  sdk := sdkOK
  flagParse := fun _ defs args =>
    if args = [] then
      Except.ok (fun name => ((defs.find? (fun f => f.name = name)).map FlagDef.value).getD "")
    else Except.error 2
  parseFloat := fun s =>
    if s = "0" then Except.ok (Float64.finite 0)
    else if s = "42.5" then Except.ok (Float64.finite (85 / 2))
    else Except.error ⟨"invalid syntax"⟩
  format2f := fun _ => "0.00"

/-! ## Theorems -/

/-- C1: `Provider.Shutdown` returns the tracing pipeline's error when there is one and
the metrics pipeline's outcome otherwise; so it returns nil exactly when both shutdowns
succeed, and when both fail the metrics error is the one that is dropped. -/
theorem Shutdown_returns_first_error (sdk : SDK) (p : Provider) (ctx : Context) (w : World) :
    let e1 := (TracerProvider.Shutdown sdk p.tracerProvider ctx w).1
    let e2 := (MeterProvider.Shutdown sdk p.meterProvider ctx
      (TracerProvider.Shutdown sdk p.tracerProvider ctx w).2).1
    ((Provider.Shutdown sdk p ctx w).1 = match e1 with | some e => some e | none => e2) ∧
    (∀ e, e1 = some e → (Provider.Shutdown sdk p ctx w).1 = some e) ∧
    (e1 = none → (Provider.Shutdown sdk p ctx w).1 = e2) ∧
    ((Provider.Shutdown sdk p ctx w).1 = none ↔ e1 = none ∧ e2 = none) := by
  intro e1 e2
  have h : (Provider.Shutdown sdk p ctx w).1 = match e1 with | some e => some e | none => e2 := by
    simp only [Provider.Shutdown, e1, e2]
    cases (TracerProvider.Shutdown sdk p.tracerProvider ctx w).1 <;> rfl
  refine ⟨h, ?_, ?_, ?_⟩
  · intro e he
    rw [h, he]
  · intro he
    rw [h, he]
  · rw [h]
    cases e1 <;> simp

/-- Witness of C1: when both pipelines fail to shut down, the error of the tracing
pipeline is the one returned. -/
theorem Shutdown_returns_first_error_witness :
    (Provider.Shutdown sdkShutdownFails providerA Context.Background World.init).1 =
      some ⟨"trace shutdown failed"⟩ :=
  (Shutdown_returns_first_error sdkShutdownFails providerA Context.Background World.init).2.1
    ⟨"trace shutdown failed"⟩ rfl

/-- C2: `Provider.Shutdown` makes exactly two calls on the SDK, whatever they return:
the shutdown of the tracing pipeline and then the shutdown of the metrics pipeline,
each once and with the caller's context; the global slots are left alone. -/
theorem Shutdown_calls_both_pipelines (sdk : SDK) (p : Provider) (ctx : Context) (w : World) :
    (Provider.Shutdown sdk p ctx w).2.log =
      w.log ++
        [Call.tracerProviderShutdown p.tracerProvider ctx
           (sdk.tracerProviderShutdown w.log p.tracerProvider ctx),
         Call.meterProviderShutdown p.meterProvider ctx
           (sdk.meterProviderShutdown
             (w.log ++ [Call.tracerProviderShutdown p.tracerProvider ctx
               (sdk.tracerProviderShutdown w.log p.tracerProvider ctx)])
             p.meterProvider ctx)] ∧
    (Provider.Shutdown sdk p ctx w).2.tracerProvider = w.tracerProvider ∧
    (Provider.Shutdown sdk p ctx w).2.meterProvider = w.meterProvider := by
  simp only [Provider.Shutdown, TracerProvider.Shutdown, MeterProvider.Shutdown, World.called]
  cases sdk.tracerProviderShutdown w.log p.tracerProvider ctx <;> simp

/-- C3: `NewProvider` and `NewProviderWithWriters` fail, with the exporter's error and
no Provider, exactly when an exporter cannot be constructed; a failing trace exporter
leaves both global slots as they were, a failing metric exporter leaves the meter slot
as it was and the tracing pipeline just built bound in the tracer slot, and on
success both slots hold the pipelines of the returned Provider. -/
theorem constructors_fail_iff_exporter_fails (sdk : SDK) (traceWriter metricWriter : Writer)
    (w : World) :
    ConstructorContract sdk [StdoutTraceOption.WithPrettyPrint] [] w (NewProvider sdk w) ∧
    ConstructorContract sdk
      [StdoutTraceOption.WithPrettyPrint, StdoutTraceOption.WithWriter traceWriter]
      [StdoutMetricOption.WithWriter metricWriter] w
      (NewProviderWithWriters sdk traceWriter metricWriter w) := by
  constructor
  · simp only [ConstructorContract, NewProvider, stdouttrace.New, stdoutmetric.New,
      World.called, otel.SetTracerProvider, otel.SetMeterProvider,
      sdktrace.NewTracerProvider, sdkmetric.NewMeterProvider]
    cases h1 : sdk.stdouttraceNew w.log [StdoutTraceOption.WithPrettyPrint] with
    | some e1 => simp
    | none =>
      cases h2 : sdk.stdoutmetricNew
          (w.log ++ [Call.stdouttraceNew [StdoutTraceOption.WithPrettyPrint] none]) [] with
      | some e2 => simp [h2]
      | none => simp [h2]
  · simp only [ConstructorContract, NewProviderWithWriters, stdouttrace.New, stdoutmetric.New,
      World.called, otel.SetTracerProvider, otel.SetMeterProvider,
      sdktrace.NewTracerProvider, sdkmetric.NewMeterProvider]
    cases h1 : sdk.stdouttraceNew w.log
        [StdoutTraceOption.WithPrettyPrint, StdoutTraceOption.WithWriter traceWriter] with
    | some e1 => simp
    | none =>
      cases h2 : sdk.stdoutmetricNew
          (w.log ++ [Call.stdouttraceNew
            [StdoutTraceOption.WithPrettyPrint, StdoutTraceOption.WithWriter traceWriter] none])
          [StdoutMetricOption.WithWriter metricWriter] with
      | some e2 => simp [h2]
      | none => simp [h2]

/-- Witness of C3: when the metric exporter cannot be constructed, `NewProvider`
returns its error, the meter slot stays as it was and the tracing pipeline just built
stays bound. -/
theorem constructors_fail_iff_exporter_fails_witness :
    (NewProvider sdkNoMetricExporter World.init).1 =
      Except.error ⟨"metric exporter unavailable"⟩ ∧
    (NewProvider sdkNoMetricExporter World.init).2.tracerProvider =
      TracerSource.sdk ⟨[TracerProviderOption.WithSampler Sampler.AlwaysSample,
        TracerProviderOption.WithBatcher ⟨0, [StdoutTraceOption.WithPrettyPrint]⟩]⟩ ∧
    (NewProvider sdkNoMetricExporter World.init).2.meterProvider = MeterSource.unset := by
  have h := (constructors_fail_iff_exporter_fails sdkNoMetricExporter (Writer.sink 1)
    (Writer.sink 2) World.init).1
  simp only [ConstructorContract] at h
  exact h.2.2.1 ⟨"metric exporter unavailable"⟩ rfl rfl

/-! ### Counting on the call log -/

theorem counterValue_append (l1 l2 : List Call) (c : Int64Counter) :
    counterValue (l1 ++ l2) c = counterValue l1 c + counterValue l2 c := by
  simp [counterValue, List.filterMap_append, List.sum_append]

theorem observations_append (l1 l2 : List Call) (h : Float64Histogram) :
    observations (l1 ++ l2) h = observations l1 h ++ observations l2 h := by
  simp [observations, List.filterMap_append]

theorem counterValue_add (c1 c : Int64Counter) (ctx : Context) (v : Int) :
    counterValue [Call.add c1 ctx v] c = if c1 = c then v else 0 := by
  by_cases hc : c1 = c <;> simp [counterValue, List.filterMap_cons, hc]

theorem counterValue_record (h : Float64Histogram) (c : Int64Counter) (ctx : Context)
    (v : Float64) : counterValue [Call.record h ctx v] c = 0 := by
  simp [counterValue, List.filterMap_cons]

theorem observations_add (c : Int64Counter) (h : Float64Histogram) (ctx : Context) (v : Int) :
    observations [Call.add c ctx v] h = [] := by
  simp [observations, List.filterMap_cons]

theorem observations_record (h1 h : Float64Histogram) (ctx : Context) (v : Float64) :
    observations [Call.record h1 ctx v] h = if h1 = h then [v] else [] := by
  by_cases hc : h1 = h <;> simp [observations, List.filterMap_cons, hc]

/-- C4: on a recorder whose four instruments are there and whose counters are three
different instruments, each of `RecordRequest`, `RecordError` and
`RecordKnowledgeAccess` makes one call, adding 1 to its own counter, and after any
sequence of record calls each counter has grown by the number of calls of its own
operation. -/
theorem record_calls_count (t : Telemetry) (rc ec kc : Int64Counter) (h : Float64Histogram)
    (hrc : t.requestCounter = some rc) (hh : t.requestDuration = some h)
    (hec : t.errorCounter = some ec) (hkc : t.knowledgeCounter = some kc)
    (hre : rc ≠ ec) (hrk : rc ≠ kc) (hek : ec ≠ kc) :
    (∀ ctx w, Telemetry.RecordRequest (some t) ctx w =
      Except.ok (w.called (Call.add rc ctx 1))) ∧
    (∀ ctx w, Telemetry.RecordError (some t) ctx w =
      Except.ok (w.called (Call.add ec ctx 1))) ∧
    (∀ ctx w, Telemetry.RecordKnowledgeAccess (some t) ctx w =
      Except.ok (w.called (Call.add kc ctx 1))) ∧
    (∀ ops w, ∃ w1, runOps (some t) ops w = Except.ok w1 ∧
      counterValue w1.log rc =
        counterValue w.log rc + (ops.map Prod.snd).count RecordOp.request ∧
      counterValue w1.log ec =
        counterValue w.log ec + (ops.map Prod.snd).count RecordOp.error ∧
      counterValue w1.log kc =
        counterValue w.log kc + (ops.map Prod.snd).count RecordOp.knowledgeAccess ∧
      observations w1.log h = observations w.log h ++ (ops.map Prod.snd).filterMap
        (fun op => match op with
          | RecordOp.duration d => some d
          | _ => none)) := by
  refine ⟨?_, ?_, ?_, ?_⟩
  · intro ctx w
    simp [Telemetry.RecordRequest, Int64Counter.Add, hrc]
  · intro ctx w
    simp [Telemetry.RecordError, Int64Counter.Add, hec]
  · intro ctx w
    simp [Telemetry.RecordKnowledgeAccess, Int64Counter.Add, hkc]
  · intro ops
    induction ops with
    | nil => intro w; exact ⟨w, rfl, by simp, by simp, by simp, by simp⟩
    | cons x ops ih =>
      intro w
      obtain ⟨ctx, op⟩ := x
      cases op with
      | request =>
        obtain ⟨w1, h1, h2, h3, h4, h5⟩ := ih (w.called (Call.add rc ctx 1))
        refine ⟨w1, ?_, ?_, ?_, ?_, ?_⟩
        · simp [runOps, RecordOp.run, Telemetry.RecordRequest, Int64Counter.Add, hrc, h1]
        · rw [h2]
          simp [World.called, counterValue_append, counterValue_add]
          ring
        · rw [h3]
          simp [World.called, counterValue_append, counterValue_add, hre]
        · rw [h4]
          simp [World.called, counterValue_append, counterValue_add, hrk]
        · rw [h5]
          simp [World.called, observations_append, observations_add]
      | error =>
        obtain ⟨w1, h1, h2, h3, h4, h5⟩ := ih (w.called (Call.add ec ctx 1))
        refine ⟨w1, ?_, ?_, ?_, ?_, ?_⟩
        · simp [runOps, RecordOp.run, Telemetry.RecordError, Int64Counter.Add, hec, h1]
        · rw [h2]
          simp [World.called, counterValue_append, counterValue_add, Ne.symm hre]
        · rw [h3]
          simp [World.called, counterValue_append, counterValue_add]
          ring
        · rw [h4]
          simp [World.called, counterValue_append, counterValue_add, hek]
        · rw [h5]
          simp [World.called, observations_append, observations_add]
      | knowledgeAccess =>
        obtain ⟨w1, h1, h2, h3, h4, h5⟩ := ih (w.called (Call.add kc ctx 1))
        refine ⟨w1, ?_, ?_, ?_, ?_, ?_⟩
        · simp [runOps, RecordOp.run, Telemetry.RecordKnowledgeAccess, Int64Counter.Add, hkc, h1]
        · rw [h2]
          simp [World.called, counterValue_append, counterValue_add, Ne.symm hrk]
        · rw [h3]
          simp [World.called, counterValue_append, counterValue_add, Ne.symm hek]
        · rw [h4]
          simp [World.called, counterValue_append, counterValue_add]
          ring
        · rw [h5]
          simp [World.called, observations_append, observations_add]
      | duration d =>
        obtain ⟨w1, h1, h2, h3, h4, h5⟩ := ih (w.called (Call.record h ctx d))
        refine ⟨w1, ?_, ?_, ?_, ?_, ?_⟩
        · simp [runOps, RecordOp.run, Telemetry.RecordDuration, Float64Histogram.Record, hh, h1]
        · rw [h2]
          simp [World.called, counterValue_append, counterValue_record]
        · rw [h3]
          simp [World.called, counterValue_append, counterValue_record]
        · rw [h4]
          simp [World.called, counterValue_append, counterValue_record]
        · rw [h5]
          simp [World.called, observations_append, observations_record]

/-- Witness of C4: the recorder that `NewTelemetry` builds for `svc-a`. -/
theorem record_calls_count_witness :
    (NewTelemetry sdkOK "svc-a" World.init).1 = some recorderA ∧
    ∃ w1, runOps (some recorderA)
        [(Context.Background, RecordOp.request), (Context.Background, RecordOp.error),
         (Context.Background, RecordOp.request),
         (Context.Background, RecordOp.duration (Float64.finite 5)),
         (Context.Background, RecordOp.request),
         (Context.Background, RecordOp.knowledgeAccess)] World.init = Except.ok w1 ∧
      counterValue w1.log ⟨⟨MeterSource.unset, "svc-a"⟩, "agent.requests",
        [InstrumentOption.WithDescription "Number of requests processed"]⟩ = 3 ∧
      counterValue w1.log ⟨⟨MeterSource.unset, "svc-a"⟩, "agent.errors",
        [InstrumentOption.WithDescription "Number of errors"]⟩ = 1 ∧
      counterValue w1.log ⟨⟨MeterSource.unset, "svc-a"⟩, "agent.knowledge.access",
        [InstrumentOption.WithDescription "Number of knowledge store accesses"]⟩ = 1 := by
  refine ⟨rfl, ?_⟩
  obtain ⟨w1, h1, h2, h3, h4, _⟩ :=
    (record_calls_count recorderA _ _ _ _ rfl rfl rfl rfl (by decide) (by decide)
      (by decide)).2.2.2
      [(Context.Background, RecordOp.request), (Context.Background, RecordOp.error),
       (Context.Background, RecordOp.request),
       (Context.Background, RecordOp.duration (Float64.finite 5)),
       (Context.Background, RecordOp.request),
       (Context.Background, RecordOp.knowledgeAccess)] World.init
  refine ⟨w1, h1, ?_, ?_, ?_⟩
  · rw [h2]; simp [World.init, counterValue]
  · rw [h3]; simp [World.init, counterValue]
  · rw [h4]; simp [World.init, counterValue]

/-- C5: on a recorder whose histogram is there, `RecordDuration` makes one call,
recording the very value it was given (whatever it is) into the request-duration
histogram: the histogram gains that one observation and no counter changes. -/
theorem RecordDuration_forwards_value (t : Telemetry) (h : Float64Histogram)
    (hh : t.requestDuration = some h) (ctx : Context) (d : Float64) (w : World) :
    Telemetry.RecordDuration (some t) ctx d w = Except.ok (w.called (Call.record h ctx d)) ∧
    observations (w.called (Call.record h ctx d)).log h = observations w.log h ++ [d] ∧
    (∀ h1, h1 ≠ h →
      observations (w.called (Call.record h ctx d)).log h1 = observations w.log h1) ∧
    ∀ c, counterValue (w.called (Call.record h ctx d)).log c = counterValue w.log c := by
  refine ⟨?_, ?_, ?_, ?_⟩
  · simp [Telemetry.RecordDuration, Float64Histogram.Record, hh]
  · simp [World.called, observations_append, observations_record]
  · intro h1 hne
    simp [World.called, observations_append, observations_record, Ne.symm hne]
  · intro c
    simp [World.called, counterValue_append, counterValue_record]

/-- Witness of C5: the value -5.0 on the recorder of `svc-a`. -/
theorem RecordDuration_forwards_value_witness :
    Telemetry.RecordDuration (some recorderA) Context.Background (Float64.finite (-5)) World.init =
      Except.ok (World.init.called (Call.record
        ⟨⟨MeterSource.unset, "svc-a"⟩, "agent.request.duration",
          [InstrumentOption.WithDescription "Duration of request processing",
           InstrumentOption.WithUnit "ms"]⟩ Context.Background (Float64.finite (-5)))) :=
  (RecordDuration_forwards_value recorderA _ rfl Context.Background (Float64.finite (-5))
    World.init).1

/-- C7, as amended: whatever the service name, `NewTelemetry` makes exactly four calls
on the SDK, all on the meter scoped by that name: a counter `agent.requests`, a
histogram `agent.request.duration` with unit `ms`, a counter `agent.errors` and a
counter `agent.knowledge.access`; the three counters are asked for with a description
and no unit, and nothing but the meter depends on the service name. -/
theorem NewTelemetry_requests_four_instruments (sdk : SDK) (serviceName : String) (w : World) :
    (∃ r1 r2 r3 r4, (NewTelemetry sdk serviceName w).2.log = w.log ++
      [Call.int64Counter ⟨w.meterProvider, serviceName⟩ "agent.requests"
         [InstrumentOption.WithDescription "Number of requests processed"] r1,
       Call.float64Histogram ⟨w.meterProvider, serviceName⟩ "agent.request.duration"
         [InstrumentOption.WithDescription "Duration of request processing",
          InstrumentOption.WithUnit "ms"] r2,
       Call.int64Counter ⟨w.meterProvider, serviceName⟩ "agent.errors"
         [InstrumentOption.WithDescription "Number of errors"] r3,
       Call.int64Counter ⟨w.meterProvider, serviceName⟩ "agent.knowledge.access"
         [InstrumentOption.WithDescription "Number of knowledge store accesses"] r4]) ∧
    ((NewTelemetry sdk serviceName w).2.log.drop w.log.length).filterMap Call.instrumentRequest =
      [(InstrumentKind.counter, serviceName, "agent.requests", none),
       (InstrumentKind.histogram, serviceName, "agent.request.duration", some "ms"),
       (InstrumentKind.counter, serviceName, "agent.errors", none),
       (InstrumentKind.counter, serviceName, "agent.knowledge.access", none)] ∧
    (NewTelemetry sdk serviceName w).2.tracerProvider = w.tracerProvider ∧
    (NewTelemetry sdk serviceName w).2.meterProvider = w.meterProvider := by
  refine ⟨?_, ?_, rfl, rfl⟩
  · simp only [NewTelemetry, Meter.Int64Counter, Meter.Float64Histogram, World.called,
      otel.Meter, List.append_assoc, List.singleton_append, List.cons_append, List.nil_append]
    exact ⟨_, _, _, _, rfl⟩
  · simp [NewTelemetry, Meter.Int64Counter, Meter.Float64Histogram, World.called, otel.Meter,
      Call.instrumentRequest, requestedUnit]

/-- C7, as stated, fails: the counters are asked for without any unit, so their unit
is not `count`; only the histogram is given one. -/
theorem counters_requested_without_unit :
    ((NewTelemetry sdkOK "svc-a" World.init).2.log.filterMap Call.instrumentRequest).map
        (fun r => r.2.2.2) = [none, some "ms", none, none] ∧
    ¬ ((NewTelemetry sdkOK "svc-a" World.init).2.log.filterMap Call.instrumentRequest =
      [(InstrumentKind.counter, "svc-a", "agent.requests", some "count"),
       (InstrumentKind.histogram, "svc-a", "agent.request.duration", some "ms"),
       (InstrumentKind.counter, "svc-a", "agent.errors", some "count"),
       (InstrumentKind.counter, "svc-a", "agent.knowledge.access", some "count")]) := by
  constructor
  · simp [NewTelemetry, Meter.Int64Counter, Meter.Float64Histogram, World.called, otel.Meter,
      Call.instrumentRequest, requestedUnit, World.init]
  · simp [NewTelemetry, Meter.Int64Counter, Meter.Float64Histogram, World.called, otel.Meter,
      Call.instrumentRequest, requestedUnit, World.init]

/-- What `NewTelemetry` returns, and the world it leaves, while the global meter slot
holds nothing or a pipeline of the SDK. -/
theorem NewTelemetry_of_openTelemetryMeter (sdk : SDK) (serviceName : String) (w : World)
    (hw : w.OpenTelemetryMeter) :
    ∃ w2, NewTelemetry sdk serviceName w =
        (some ⟨serviceName, some ⟨w.tracerProvider, serviceName⟩,
          some ⟨w.meterProvider, serviceName⟩,
          some ⟨⟨w.meterProvider, serviceName⟩, "agent.requests",
            [InstrumentOption.WithDescription "Number of requests processed"]⟩,
          some ⟨⟨w.meterProvider, serviceName⟩, "agent.request.duration",
            [InstrumentOption.WithDescription "Duration of request processing",
             InstrumentOption.WithUnit "ms"]⟩,
          some ⟨⟨w.meterProvider, serviceName⟩, "agent.errors",
            [InstrumentOption.WithDescription "Number of errors"]⟩,
          some ⟨⟨w.meterProvider, serviceName⟩, "agent.knowledge.access",
            [InstrumentOption.WithDescription "Number of knowledge store accesses"]⟩⟩, w2) ∧
      w2.tracerProvider = w.tracerProvider ∧ w2.meterProvider = w.meterProvider ∧
      w2.meterDelegate = w.meterDelegate ∧ w2.pipeline = w.pipeline := by
  refine ⟨(NewTelemetry sdk serviceName w).2, ?_, ?_⟩
  · apply Prod.ext
    · rcases hw with h | ⟨mp, h⟩ <;>
        simp [NewTelemetry, Meter.Int64Counter, Meter.Float64Histogram, otel.Meter,
          otel.Tracer, h]
    · rfl
  · simp [NewTelemetry, Meter.Int64Counter, Meter.Float64Histogram, World.called,
      World.reaches]

/-- The recorder that `NewTelemetry` returns, while the global meter slot holds nothing
or a pipeline of the SDK, has its four instruments, and its three counters are three
different instruments. -/
theorem NewTelemetry_instruments_usable (sdk : SDK) (serviceName : String) (w : World)
    (hw : w.OpenTelemetryMeter) :
    ∃ t rc h ec kc, (NewTelemetry sdk serviceName w).1 = some t ∧
      t.requestCounter = some rc ∧ t.requestDuration = some h ∧
      t.errorCounter = some ec ∧ t.knowledgeCounter = some kc ∧
      rc ≠ ec ∧ rc ≠ kc ∧ ec ≠ kc := by
  obtain ⟨w2, h, _⟩ := NewTelemetry_of_openTelemetryMeter sdk serviceName w hw
  rw [h]
  exact ⟨_, _, _, _, _, rfl, rfl, rfl, rfl, rfl, by simp, by simp, by simp⟩

/-- C8: whatever the service name, and whether the global meter slot holds a pipeline
bound by a Provider or nothing at all, `NewTelemetry` returns a recorder that is not
nil, stores the given name, and holds a tracer, a meter and the four instruments, none
of them nil. -/
theorem NewTelemetry_returns_recorder (sdk : SDK) (serviceName : String) (w : World)
    (hw : w.OpenTelemetryMeter) :
    ∃ t, (NewTelemetry sdk serviceName w).1 = some t ∧
      t.serviceName = serviceName ∧
      t.tracer ≠ none ∧ t.meter ≠ none ∧
      t.requestCounter ≠ none ∧ t.requestDuration ≠ none ∧
      t.errorCounter ≠ none ∧ t.knowledgeCounter ≠ none := by
  obtain ⟨w2, h, _⟩ := NewTelemetry_of_openTelemetryMeter sdk serviceName w hw
  rw [h]
  exact ⟨_, rfl, rfl, by simp, by simp, by simp, by simp, by simp, by simp⟩

/-- Witness of C8: the service `test-service` with nothing bound, as in the test
`TestNewTelemetry`, and after `NewProvider` has bound its pipelines. -/
theorem NewTelemetry_returns_recorder_witness :
    (∃ t, (NewTelemetry sdkOK "test-service" World.init).1 = some t ∧
      t.serviceName = "test-service" ∧
      t.tracer ≠ none ∧ t.meter ≠ none ∧
      t.requestCounter ≠ none ∧ t.requestDuration ≠ none ∧
      t.errorCounter ≠ none ∧ t.knowledgeCounter ≠ none) ∧
    (∃ t, (NewTelemetry sdkOK "test-service" (NewProvider sdkOK World.init).2).1 = some t ∧
      t.serviceName = "test-service" ∧
      t.tracer ≠ none ∧ t.meter ≠ none ∧
      t.requestCounter ≠ none ∧ t.requestDuration ≠ none ∧
      t.errorCounter ≠ none ∧ t.knowledgeCounter ≠ none) :=
  ⟨NewTelemetry_returns_recorder sdkOK "test-service" World.init (Or.inl rfl),
   NewTelemetry_returns_recorder sdkOK "test-service" (NewProvider sdkOK World.init).2
     (Or.inr ⟨_, rfl⟩)⟩

/-- On a recorder whose four instruments are there, every record method returns
normally, whatever is bound globally. -/
theorem record_returns_normally (t : Telemetry) (hrc : t.requestCounter ≠ none)
    (hrd : t.requestDuration ≠ none) (hec : t.errorCounter ≠ none)
    (hkc : t.knowledgeCounter ≠ none) (ctx : Context) (d : Float64) (w : World) :
    (∃ w1, Telemetry.RecordRequest (some t) ctx w = Except.ok w1) ∧
    (∃ w1, Telemetry.RecordError (some t) ctx w = Except.ok w1) ∧
    (∃ w1, Telemetry.RecordKnowledgeAccess (some t) ctx w = Except.ok w1) ∧
    (∃ w1, Telemetry.RecordDuration (some t) ctx d w = Except.ok w1) := by
  obtain ⟨rc, hrc⟩ := Option.ne_none_iff_exists'.mp hrc
  obtain ⟨rd, hrd⟩ := Option.ne_none_iff_exists'.mp hrd
  obtain ⟨ec, hec⟩ := Option.ne_none_iff_exists'.mp hec
  obtain ⟨kc, hkc⟩ := Option.ne_none_iff_exists'.mp hkc
  simp [Telemetry.RecordRequest, Telemetry.RecordError, Telemetry.RecordKnowledgeAccess,
    Telemetry.RecordDuration, Int64Counter.Add, Float64Histogram.Record, hrc, hrd, hec, hkc]

/-- C9, as amended: for the recorder that `NewTelemetry` returns while the global meter
slot holds a pipeline bound by a Provider or nothing at all, each of the four record
methods, called in any later state of the process, returns normally after one call
on its own instrument. -/
theorem record_methods_return_normally (sdk : SDK) (serviceName : String) (w : World)
    (hw : w.OpenTelemetryMeter) (ctx : Context) (d : Float64) (w1 : World) :
    Telemetry.RecordRequest (NewTelemetry sdk serviceName w).1 ctx w1 =
      Except.ok (w1.called (Call.add ⟨⟨w.meterProvider, serviceName⟩, "agent.requests",
        [InstrumentOption.WithDescription "Number of requests processed"]⟩ ctx 1)) ∧
    Telemetry.RecordError (NewTelemetry sdk serviceName w).1 ctx w1 =
      Except.ok (w1.called (Call.add ⟨⟨w.meterProvider, serviceName⟩, "agent.errors",
        [InstrumentOption.WithDescription "Number of errors"]⟩ ctx 1)) ∧
    Telemetry.RecordKnowledgeAccess (NewTelemetry sdk serviceName w).1 ctx w1 =
      Except.ok (w1.called (Call.add ⟨⟨w.meterProvider, serviceName⟩,
        "agent.knowledge.access",
        [InstrumentOption.WithDescription "Number of knowledge store accesses"]⟩ ctx 1)) ∧
    Telemetry.RecordDuration (NewTelemetry sdk serviceName w).1 ctx d w1 =
      Except.ok (w1.called (Call.record ⟨⟨w.meterProvider, serviceName⟩,
        "agent.request.duration",
        [InstrumentOption.WithDescription "Duration of request processing",
         InstrumentOption.WithUnit "ms"]⟩ ctx d)) := by
  obtain ⟨w2, h, _⟩ := NewTelemetry_of_openTelemetryMeter sdk serviceName w hw
  rw [h]
  exact ⟨rfl, rfl, rfl, rfl⟩

/-- Witness of C9, as amended: the calls of the test `TestTelemetryMethods`, with
nothing bound. -/
theorem record_methods_return_normally_witness :
    (∃ w1, Telemetry.RecordRequest (NewTelemetry sdkOK "test-service" World.init).1
      Context.Background (NewTelemetry sdkOK "test-service" World.init).2 = Except.ok w1) ∧
    (∃ w1, Telemetry.RecordDuration (NewTelemetry sdkOK "test-service" World.init).1
      Context.Background (Float64.finite (12345 / 100))
      (NewTelemetry sdkOK "test-service" World.init).2 = Except.ok w1) :=
  ⟨⟨_, (record_methods_return_normally sdkOK "test-service" World.init (Or.inl rfl)
      Context.Background (Float64.finite (12345 / 100))
      (NewTelemetry sdkOK "test-service" World.init).2).1⟩,
   ⟨_, (record_methods_return_normally sdkOK "test-service" World.init (Or.inl rfl)
      Context.Background (Float64.finite (12345 / 100))
      (NewTelemetry sdkOK "test-service" World.init).2).2.2.2⟩⟩

/-- C9, as stated, fails: where the host program bound a meter provider of another make
that answers the creation of an instrument with nil and an error, the recorder that
`NewTelemetry` returns holds nil instruments, and each of the four record methods
panics on it. -/
theorem record_on_nil_instrument_panics :
    (∃ t, (NewTelemetry sdkNilInstruments "test-service" World.hostBound).1 = some t ∧
      t.requestCounter = none ∧ t.requestDuration = none ∧
      t.errorCounter = none ∧ t.knowledgeCounter = none) ∧
    Telemetry.RecordRequest (NewTelemetry sdkNilInstruments "test-service" World.hostBound).1
        Context.Background (NewTelemetry sdkNilInstruments "test-service" World.hostBound).2 =
      Except.error GoPanic.nilDereference ∧
    Telemetry.RecordError (NewTelemetry sdkNilInstruments "test-service" World.hostBound).1
        Context.Background (NewTelemetry sdkNilInstruments "test-service" World.hostBound).2 =
      Except.error GoPanic.nilDereference ∧
    Telemetry.RecordKnowledgeAccess
        (NewTelemetry sdkNilInstruments "test-service" World.hostBound).1
        Context.Background (NewTelemetry sdkNilInstruments "test-service" World.hostBound).2 =
      Except.error GoPanic.nilDereference ∧
    Telemetry.RecordDuration (NewTelemetry sdkNilInstruments "test-service" World.hostBound).1
        Context.Background (Float64.finite (12345 / 100))
        (NewTelemetry sdkNilInstruments "test-service" World.hostBound).2 =
      Except.error GoPanic.nilDereference :=
  ⟨⟨_, rfl, rfl, rfl, rfl, rfl⟩, rfl, rfl, rfl, rfl⟩

/-! ### The metric sink -/

theorem flushedFrom_append (wr : Writer) (l : List PipelineEvent) :
    ∀ (seen rest : List PipelineEvent),
      flushedFrom wr seen (l ++ rest) =
        flushedFrom wr seen l ++ flushedFrom wr (seen ++ l) rest := by
  induction l with
  | nil => intro seen rest; simp [flushedFrom]
  | cons e l ih =>
    intro seen rest
    have h := ih (seen ++ [e]) rest
    simp only [List.append_assoc, List.singleton_append] at h
    simp only [List.cons_append, flushedFrom, List.append_assoc]
    exact congrArg _ h

/-- What a pipeline flushes at its shutdown is in the sinks it exports to. -/
theorem flush_subset_metricSink (wr : Writer) (mp : MeterProvider) (w : World)
    (pre : List PipelineEvent) (hwr : wr ∈ mp.writers)
    (hp : w.pipeline = pre ++ [PipelineEvent.flushed mp]) :
    ∀ entry ∈ flush mp pre, entry ∈ metricSink wr w := by
  intro entry he
  simp only [metricSink, hp, flushedFrom_append, flushedFrom, List.nil_append, hwr, if_true,
    List.append_nil, List.mem_append]
  exact Or.inr he

theorem streamSum_append (mp : MeterProvider) (key : String × String × List InstrumentOption)
    (l1 l2 : List PipelineEvent) :
    streamSum mp key (l1 ++ l2) = streamSum mp key l1 + streamSum mp key l2 := by
  simp [streamSum, List.filterMap_append, List.sum_append]

theorem streamObservations_append (mp : MeterProvider)
    (key : String × String × List InstrumentOption) (l1 l2 : List PipelineEvent) :
    streamObservations mp key (l1 ++ l2) =
      streamObservations mp key l1 ++ streamObservations mp key l2 := by
  simp [streamObservations, List.filterMap_append]

theorem streamSum_of_fresh (mp : MeterProvider) (key : String × String × List InstrumentOption)
    (l : List PipelineEvent) (h : ∀ e ∈ l, e.target ≠ mp) : streamSum mp key l = 0 := by
  have hnil : (l.filterMap fun e =>
      match e with
      | PipelineEvent.counted mp1 scope name opts incr =>
        if mp1 = mp ∧ (scope, name, opts) = key then some incr else none
      | _ => none) = [] := by
    rw [List.filterMap_eq_nil_iff]
    intro e he
    have ht := h e he
    cases e with
    | counted mp1 scope name opts incr =>
      have hne : mp1 ≠ mp := ht
      simp [hne]
    | observed mp1 scope name opts value => rfl
    | flushed mp1 => rfl
  simp [streamSum, hnil]

theorem streamObservations_of_fresh (mp : MeterProvider)
    (key : String × String × List InstrumentOption) (l : List PipelineEvent)
    (h : ∀ e ∈ l, e.target ≠ mp) : streamObservations mp key l = [] := by
  unfold streamObservations
  rw [List.filterMap_eq_nil_iff]
  intro e he
  have ht := h e he
  cases e with
  | counted mp1 scope name opts incr => rfl
  | observed mp1 scope name opts value =>
    have hne : mp1 ≠ mp := ht
    simp [hne]
  | flushed mp1 => rfl

/-- The flush of a pipeline that received, after events that were not its own, `n`
increments by 1 of one counter and then one observation of one histogram. -/
theorem flush_of_scenario (mp : MeterProvider) (scope : String)
    (cname hname : String) (copts hopts : List InstrumentOption) (n : Nat) (d : Float64)
    (old : List PipelineEvent) (hold : ∀ e ∈ old, e.target ≠ mp) (hn : 0 < n) :
    MetricEntry.sum scope cname n ∈
      flush mp (old ++ List.replicate n (PipelineEvent.counted mp scope cname copts 1) ++
        [PipelineEvent.observed mp scope hname hopts d]) ∧
    MetricEntry.histogram scope hname [d] ∈
      flush mp (old ++ List.replicate n (PipelineEvent.counted mp scope cname copts 1) ++
        [PipelineEvent.observed mp scope hname hopts d]) := by
  constructor
  · unfold flush
    apply List.mem_append_left
    rw [List.mem_map]
    refine ⟨(scope, cname, copts), ?_, ?_⟩
    · simp only [countedStreams, List.mem_dedup, List.mem_filterMap, List.mem_append,
        List.mem_replicate, List.mem_singleton]
      refine ⟨PipelineEvent.counted mp scope cname copts 1,
        Or.inl (Or.inr ⟨by omega, rfl⟩), by simp⟩
    · have h1 : streamSum mp (scope, cname, copts)
          (List.replicate n (PipelineEvent.counted mp scope cname copts 1)) = n := by
        simp [streamSum, List.filterMap_replicate_of_some]
      have h2 : streamSum mp (scope, cname, copts)
          [PipelineEvent.observed mp scope hname hopts d] = 0 := by
        simp [streamSum]
      simp [streamSum_append, streamSum_of_fresh mp _ old hold, h1, h2]
  · unfold flush
    apply List.mem_append_right
    rw [List.mem_map]
    refine ⟨(scope, hname, hopts), ?_, ?_⟩
    · simp only [observedStreams, List.mem_dedup, List.mem_filterMap, List.mem_append,
        List.mem_replicate, List.mem_singleton]
      exact ⟨PipelineEvent.observed mp scope hname hopts d, Or.inr rfl, by simp⟩
    · have h1 : streamObservations mp (scope, hname, hopts)
          (List.replicate n (PipelineEvent.counted mp scope cname copts 1)) = [] := by
        simp [streamObservations]
      have h2 : streamObservations mp (scope, hname, hopts)
          [PipelineEvent.observed mp scope hname hopts d] = [d] := by
        simp [streamObservations]
      simp [streamObservations_append, streamObservations_of_fresh mp _ old hold, h1, h2]

theorem runOps_replicate_request (t : Telemetry) (rc : Int64Counter) (mp : MeterProvider)
    (hrc : t.requestCounter = some rc) (hs : rc.meter.source = MeterSource.sdk mp)
    (ctx : Context) (rest : List (Context × RecordOp)) :
    ∀ (n : Nat) (w : World),
      runOps (some t) (List.replicate n (ctx, RecordOp.request) ++ rest) w =
        runOps (some t) rest
          ⟨w.tracerProvider, w.meterProvider,
            w.log ++ List.replicate n (Call.add rc ctx 1), w.meterDelegate,
            w.pipeline ++
              List.replicate n (PipelineEvent.counted mp rc.meter.name rc.name rc.opts 1)⟩ := by
  intro n
  induction n with
  | zero => intro w; simp
  | succ n ih =>
    intro w
    rw [List.replicate_succ, List.cons_append]
    simp only [runOps, RecordOp.run, Telemetry.RecordRequest, Int64Counter.Add, hrc]
    rw [ih]
    simp [World.called, World.reaches, World.pipelineOf, hs, List.replicate_succ]

/-- What `Provider.Shutdown` makes reach the pipelines: the flush of the metrics
pipeline, when its shutdown succeeds. -/
theorem Shutdown_pipeline (sdk : SDK) (p : Provider) (ctx : Context) (w : World)
    (h : (MeterProvider.Shutdown sdk p.meterProvider ctx
      (TracerProvider.Shutdown sdk p.tracerProvider ctx w).2).1 = none) :
    (Provider.Shutdown sdk p ctx w).2.pipeline =
      w.pipeline ++ [PipelineEvent.flushed p.meterProvider] := by
  simp only [MeterProvider.Shutdown, TracerProvider.Shutdown, World.called] at h
  simp only [Provider.Shutdown, TracerProvider.Shutdown, MeterProvider.Shutdown, World.called,
    World.reaches, h]
  cases sdk.tracerProviderShutdown w.log p.tracerProvider ctx <;> simp

/-- What a successful `NewProviderWithWriters` leaves behind. -/
theorem NewProviderWithWriters_ok (sdk : SDK) (traceWriter metricWriter : Writer)
    (w : World) (p : Provider) (w1 : World)
    (hnew : NewProviderWithWriters sdk traceWriter metricWriter w = (Except.ok p, w1)) :
    p.meterProvider = ⟨[MeterProviderOption.WithReader (Reader.PeriodicReader
      ⟨w.log.length + 1, [StdoutMetricOption.WithWriter metricWriter]⟩)]⟩ ∧
    w1.meterProvider = MeterSource.sdk p.meterProvider ∧
    w1.pipeline = w.pipeline := by
  simp only [NewProviderWithWriters, stdouttrace.New, stdoutmetric.New,
    World.called, otel.SetTracerProvider, otel.SetMeterProvider,
    sdktrace.NewTracerProvider, sdkmetric.NewMeterProvider] at hnew
  cases ht : sdk.stdouttraceNew w.log
      [StdoutTraceOption.WithPrettyPrint, StdoutTraceOption.WithWriter traceWriter] with
  | some e => simp [ht] at hnew
  | none =>
    cases hm : sdk.stdoutmetricNew
        (w.log ++ [Call.stdouttraceNew
          [StdoutTraceOption.WithPrettyPrint, StdoutTraceOption.WithWriter traceWriter] none])
        [StdoutMetricOption.WithWriter metricWriter] with
    | some e => simp [ht, hm] at hnew
    | none =>
      simp [ht, hm] at hnew
      obtain ⟨hp, hw1⟩ := hnew
      subst hp
      subst hw1
      simp [World.reaches]

/-- C6, as amended: once `NewProviderWithWriters` has succeeded with a metric sink, a
recorder is created by `NewTelemetry`, `RecordRequest` is called `n` times, at least
once, and `RecordDuration` once with `d`, and `Shutdown` is called, then, if the
shutdown of the metrics pipeline succeeds, the metric sink holds a counter entry
`agent.requests` with value `n` and a histogram entry `agent.request.duration` with the
single observation `d`.  The pipeline is new: nothing reached it before it was built. -/
theorem recorder_records_into_bound_pipeline (sdk : SDK) (traceWriter metricWriter : Writer)
    (serviceName : String) (n : Nat) (d : Float64) (rctx ctx : Context) (w : World)
    (p : Provider) (w1 : World)
    (hnew : NewProviderWithWriters sdk traceWriter metricWriter w = (Except.ok p, w1))
    (hfresh : ∀ e ∈ w.pipeline, e.target ≠ p.meterProvider)
    (hn : 0 < n) :
    ∃ t w2 w3, NewTelemetry sdk serviceName w1 = (some t, w2) ∧
      runOps (some t)
        (List.replicate n (rctx, RecordOp.request) ++ [(rctx, RecordOp.duration d)]) w2 =
        Except.ok w3 ∧
      ((MeterProvider.Shutdown sdk p.meterProvider ctx
          (TracerProvider.Shutdown sdk p.tracerProvider ctx w3).2).1 = none →
        MetricEntry.sum serviceName "agent.requests" n ∈
          metricSink metricWriter (Provider.Shutdown sdk p ctx w3).2 ∧
        MetricEntry.histogram serviceName "agent.request.duration" [d] ∈
          metricSink metricWriter (Provider.Shutdown sdk p ctx w3).2) := by
  obtain ⟨hmp, hw1m, hw1p⟩ :=
    NewProviderWithWriters_ok sdk traceWriter metricWriter w p w1 hnew
  obtain ⟨w2, hNT, _, hw2m, _, hw2p⟩ :=
    NewTelemetry_of_openTelemetryMeter sdk serviceName w1 (Or.inr ⟨_, hw1m⟩)
  rw [hw1m] at hNT
  have hrun := runOps_replicate_request
    ⟨serviceName, some ⟨w1.tracerProvider, serviceName⟩,
      some ⟨MeterSource.sdk p.meterProvider, serviceName⟩,
      some ⟨⟨MeterSource.sdk p.meterProvider, serviceName⟩, "agent.requests",
        [InstrumentOption.WithDescription "Number of requests processed"]⟩,
      some ⟨⟨MeterSource.sdk p.meterProvider, serviceName⟩, "agent.request.duration",
        [InstrumentOption.WithDescription "Duration of request processing",
         InstrumentOption.WithUnit "ms"]⟩,
      some ⟨⟨MeterSource.sdk p.meterProvider, serviceName⟩, "agent.errors",
        [InstrumentOption.WithDescription "Number of errors"]⟩,
      some ⟨⟨MeterSource.sdk p.meterProvider, serviceName⟩, "agent.knowledge.access",
        [InstrumentOption.WithDescription "Number of knowledge store accesses"]⟩⟩
    ⟨⟨MeterSource.sdk p.meterProvider, serviceName⟩, "agent.requests",
      [InstrumentOption.WithDescription "Number of requests processed"]⟩ p.meterProvider
    rfl rfl rctx [(rctx, RecordOp.duration d)] n w2
  simp only [runOps, RecordOp.run, Telemetry.RecordDuration, Float64Histogram.Record] at hrun
  refine ⟨_, w2, _, hNT, hrun, ?_⟩
  intro hflush
  have hpipe := Shutdown_pipeline sdk p ctx _ hflush
  have hwr : metricWriter ∈ p.meterProvider.writers := by
    rw [hmp]
    simp [MeterProvider.writers, MetricExporter.writer]
  have hmem := flush_of_scenario p.meterProvider serviceName "agent.requests"
    "agent.request.duration"
    [InstrumentOption.WithDescription "Number of requests processed"]
    [InstrumentOption.WithDescription "Duration of request processing",
     InstrumentOption.WithUnit "ms"] n d w.pipeline hfresh hn
  exact ⟨flush_subset_metricSink metricWriter p.meterProvider _ _ hwr
      (hpipe.trans (by simp [World.called, World.reaches, World.pipelineOf, hw2p, hw1p]))
      _ hmem.1,
    flush_subset_metricSink metricWriter p.meterProvider _ _ hwr
      (hpipe.trans (by simp [World.called, World.reaches, World.pipelineOf, hw2p, hw1p]))
      _ hmem.2⟩

/-- A recorder built before any provider was bound records into the first pipeline
bound afterwards, from then on: the built-in default delegates to it. -/
theorem recorder_before_provider_records :
    ∃ w3,
      runOps (NewTelemetry sdkOK "svc-a" World.init).1
        (List.replicate 3 (Context.Background, RecordOp.request) ++
          [(Context.Background, RecordOp.duration (Float64.finite (85 / 2)))])
        (NewProviderWithWriters sdkOK (Writer.sink 1) (Writer.sink 2)
          (NewTelemetry sdkOK "svc-a" World.init).2).2 =
        Except.ok w3 ∧
      metricSink (Writer.sink 2)
        (MeterProvider.Shutdown sdkOK
          ⟨[MeterProviderOption.WithReader
            (Reader.PeriodicReader ⟨5, [StdoutMetricOption.WithWriter (Writer.sink 2)]⟩)]⟩
          Context.Background w3).2 =
        [MetricEntry.sum "svc-a" "agent.requests" 3,
         MetricEntry.histogram "svc-a" "agent.request.duration"
           [Float64.finite (85 / 2)]] := by
  refine ⟨_, rfl, ?_⟩
  simp [metricSink, flushedFrom, flush, countedStreams, observedStreams, streamSum,
    streamObservations, MeterProvider.Shutdown, World.called, World.reaches,
    World.pipelineOf, sdkOK, NewTelemetry, NewProviderWithWriters, stdouttrace.New,
    stdoutmetric.New, otel.SetTracerProvider, otel.SetMeterProvider,
    sdktrace.NewTracerProvider, sdkmetric.NewMeterProvider, Meter.Int64Counter,
    Meter.Float64Histogram, otel.Meter, otel.Tracer, World.init, MeterProvider.writers,
    MetricExporter.writer, runOps, RecordOp.run, Telemetry.RecordRequest,
    Telemetry.RecordDuration, Int64Counter.Add, Float64Histogram.Record, List.replicate]

/-- Witness of C6, as amended: service `svc-a`, three requests and one duration of
42.5 in a fresh process, with the sinks 1 and 2. -/
theorem recorder_records_into_bound_pipeline_witness :
    ∃ t w2 w3,
      NewTelemetry sdkOK "svc-a"
        (NewProviderWithWriters sdkOK (Writer.sink 1) (Writer.sink 2) World.init).2 =
          (some t, w2) ∧
      runOps (some t)
        (List.replicate 3 (Context.Background, RecordOp.request) ++
          [(Context.Background, RecordOp.duration (Float64.finite (85 / 2)))]) w2 =
        Except.ok w3 ∧
      MetricEntry.sum "svc-a" "agent.requests" ((3 : Nat) : Int) ∈
        metricSink (Writer.sink 2)
          (Provider.Shutdown sdkOK providerA Context.Background w3).2 ∧
      MetricEntry.histogram "svc-a" "agent.request.duration" [Float64.finite (85 / 2)] ∈
        metricSink (Writer.sink 2)
          (Provider.Shutdown sdkOK providerA Context.Background w3).2 := by
  obtain ⟨t, w2, w3, h1, h2, h3⟩ :=
    recorder_records_into_bound_pipeline sdkOK (Writer.sink 1) (Writer.sink 2) "svc-a" 3
      (Float64.finite (85 / 2)) Context.Background Context.Background World.init providerA
      (NewProviderWithWriters sdkOK (Writer.sink 1) (Writer.sink 2) World.init).2 rfl
      (by simp [World.init]) (by decide)
  exact ⟨t, w2, w3, h1, h2, h3 rfl⟩

/-- C6, as stated, fails: when `RecordRequest` is never called (n = 0) the flush writes
the histogram entry but no entry `agent.requests` at all, and when the duration is not
a number the shutdown of the metrics pipeline fails and nothing is flushed. -/
theorem no_entry_without_record_or_flush :
    (∃ t w2 w3,
      NewTelemetry sdkOK "svc-a"
        (NewProviderWithWriters sdkOK (Writer.sink 1) (Writer.sink 2) World.init).2 =
          (some t, w2) ∧
      runOps (some t)
        (List.replicate 0 (Context.Background, RecordOp.request) ++
          [(Context.Background, RecordOp.duration (Float64.finite (85 / 2)))]) w2 =
        Except.ok w3 ∧
      metricSink (Writer.sink 2) (Provider.Shutdown sdkOK providerA Context.Background w3).2 =
        [MetricEntry.histogram "svc-a" "agent.request.duration" [Float64.finite (85 / 2)]] ∧
      MetricEntry.sum "svc-a" "agent.requests" ((0 : Nat) : Int) ∉
        metricSink (Writer.sink 2)
          (Provider.Shutdown sdkOK providerA Context.Background w3).2) ∧
    (∃ t w2 w3,
      NewTelemetry sdkFiniteOnly "svc-a"
        (NewProviderWithWriters sdkFiniteOnly (Writer.sink 1) (Writer.sink 2) World.init).2 =
          (some t, w2) ∧
      runOps (some t)
        (List.replicate 3 (Context.Background, RecordOp.request) ++
          [(Context.Background, RecordOp.duration Float64.nan)]) w2 = Except.ok w3 ∧
      (Provider.Shutdown sdkFiniteOnly providerA Context.Background w3).1 =
        some ⟨"unsupported value"⟩ ∧
      metricSink (Writer.sink 2)
        (Provider.Shutdown sdkFiniteOnly providerA Context.Background w3).2 = []) := by
  constructor
  · refine ⟨_, _, _, rfl, rfl, ?_⟩
    simp [metricSink, flushedFrom, flush, countedStreams, observedStreams, streamSum,
      streamObservations, Provider.Shutdown, TracerProvider.Shutdown, MeterProvider.Shutdown,
      World.called, World.reaches, World.pipelineOf, sdkOK, providerA, NewTelemetry,
      NewProviderWithWriters, stdouttrace.New, stdoutmetric.New, otel.SetTracerProvider,
      otel.SetMeterProvider, sdktrace.NewTracerProvider, sdkmetric.NewMeterProvider,
      Meter.Int64Counter, Meter.Float64Histogram, otel.Meter, otel.Tracer, World.init,
      MeterProvider.writers, MetricExporter.writer]
  · refine ⟨_, _, _, rfl, rfl, ?_⟩
    simp [metricSink, flushedFrom, flush, countedStreams, observedStreams, streamSum,
      streamObservations, Provider.Shutdown, TracerProvider.Shutdown, MeterProvider.Shutdown,
      World.called, World.reaches, World.pipelineOf, sdkOK, sdkFiniteOnly, providerA,
      NewTelemetry, NewProviderWithWriters, stdouttrace.New, stdoutmetric.New,
      otel.SetTracerProvider, otel.SetMeterProvider, sdktrace.NewTracerProvider,
      sdkmetric.NewMeterProvider, Meter.Int64Counter, Meter.Float64Histogram, otel.Meter,
      otel.Tracer, World.init, MeterProvider.writers, MetricExporter.writer, Float64.isFinite]

/-! ### The command -/

/-- Every call into the telemetry package leaves calls on the log, so a process whose
state is unchanged has made none. -/
theorem core_calls_grow_log (sdk : SDK) (w : World) :
    w.log.length < (NewProvider sdk w).2.log.length ∧
    (∀ serviceName, (NewTelemetry sdk serviceName w).2.log.length = w.log.length + 4) ∧
    (∀ t ctx w1, Telemetry.RecordRequest t ctx w = Except.ok w1 →
      w1.log.length = w.log.length + 1) ∧
    (∀ t ctx w1, Telemetry.RecordError t ctx w = Except.ok w1 →
      w1.log.length = w.log.length + 1) ∧
    (∀ t ctx w1, Telemetry.RecordKnowledgeAccess t ctx w = Except.ok w1 →
      w1.log.length = w.log.length + 1) ∧
    (∀ t ctx d w1, Telemetry.RecordDuration t ctx d w = Except.ok w1 →
      w1.log.length = w.log.length + 1) := by
  refine ⟨?_, ?_, ?_, ?_, ?_, ?_⟩
  · simp only [NewProvider, stdouttrace.New, stdoutmetric.New, World.called,
      otel.SetTracerProvider, otel.SetMeterProvider]
    cases h1 : sdk.stdouttraceNew w.log [StdoutTraceOption.WithPrettyPrint] with
    | some e => simp
    | none =>
      cases h2 : sdk.stdoutmetricNew
          (w.log ++ [Call.stdouttraceNew [StdoutTraceOption.WithPrettyPrint] none]) [] with
      | some e => simp [h2]
      | none => simp [h2]
  · intro serviceName
    simp [NewTelemetry, Meter.Int64Counter, Meter.Float64Histogram, World.called]
  · intro t ctx w1 h
    cases t with
    | none => simp [Telemetry.RecordRequest] at h
    | some t =>
      cases hc : t.requestCounter with
      | none => simp [Telemetry.RecordRequest, Int64Counter.Add, hc] at h
      | some c =>
        simp [Telemetry.RecordRequest, Int64Counter.Add, hc] at h
        rw [← h]; simp [World.called]
  · intro t ctx w1 h
    cases t with
    | none => simp [Telemetry.RecordError] at h
    | some t =>
      cases hc : t.errorCounter with
      | none => simp [Telemetry.RecordError, Int64Counter.Add, hc] at h
      | some c =>
        simp [Telemetry.RecordError, Int64Counter.Add, hc] at h
        rw [← h]; simp [World.called]
  · intro t ctx w1 h
    cases t with
    | none => simp [Telemetry.RecordKnowledgeAccess] at h
    | some t =>
      cases hc : t.knowledgeCounter with
      | none => simp [Telemetry.RecordKnowledgeAccess, Int64Counter.Add, hc] at h
      | some c =>
        simp [Telemetry.RecordKnowledgeAccess, Int64Counter.Add, hc] at h
        rw [← h]; simp [World.called]
  · intro t ctx d w1 h
    cases t with
    | none => simp [Telemetry.RecordDuration] at h
    | some t =>
      cases hc : t.requestDuration with
      | none => simp [Telemetry.RecordDuration, Float64Histogram.Record, hc] at h
      | some c =>
        simp [Telemetry.RecordDuration, Float64Histogram.Record, hc] at h
        rw [← h]; simp [World.called]

/-- C10, as amended: the state `main` leaves is the state its calls into the telemetry
package leave.  A missing or unknown subcommand leaves the state untouched and exits
with status 1.  When the flags of the subcommand parse, `start` runs `NewProvider` and,
if that succeeds, `NewTelemetry` for the service name, then blocks (if it fails, it
exits with status 1); each `record-*` runs `NewTelemetry` for `aixtiv-cli` and then its
own record method once, `record-duration` with the parsed duration, and leaves the
state untouched with status 1 when the duration does not parse; `shutdown` leaves the
state untouched and only prints.  When the flag parser exits, the state is untouched. -/
theorem main_dispatch (env : Env) (prog : String) (rest : List String) (w : World) :
    ((main env [] w).world = w ∧ (main env [] w).status = Status.exited 1) ∧
    ((main env [prog] w).world = w ∧ (main env [prog] w).status = Status.exited 1) ∧
    (∀ cmd, cmd ∉ ["start", "record-request", "record-error", "record-knowledge",
        "record-duration", "shutdown"] →
      (main env (prog :: cmd :: rest) w).world = w ∧
      (main env (prog :: cmd :: rest) w).status = Status.exited 1) ∧
    (∀ flags, env.flagParse "start" startFlags rest = Except.ok flags →
      (∀ p w1, NewProvider env.sdk w = (Except.ok p, w1) →
        (main env (prog :: "start" :: rest) w).world =
          (NewTelemetry env.sdk (flags "service") w1).2 ∧
        (main env (prog :: "start" :: rest) w).status = Status.blocked p) ∧
      (∀ e w1, NewProvider env.sdk w = (Except.error e, w1) →
        (main env (prog :: "start" :: rest) w).world = w1 ∧
        (main env (prog :: "start" :: rest) w).status = Status.exited 1)) ∧
    (∀ flags, env.flagParse "record-request" recordRequestFlags rest = Except.ok flags →
      (∀ w2, Telemetry.RecordRequest (NewTelemetry env.sdk "aixtiv-cli" w).1
          Context.Background (NewTelemetry env.sdk "aixtiv-cli" w).2 = Except.ok w2 →
        (main env (prog :: "record-request" :: rest) w).world = w2 ∧
        (main env (prog :: "record-request" :: rest) w).status = Status.returned) ∧
      (∀ e, Telemetry.RecordRequest (NewTelemetry env.sdk "aixtiv-cli" w).1
          Context.Background (NewTelemetry env.sdk "aixtiv-cli" w).2 = Except.error e →
        (main env (prog :: "record-request" :: rest) w).world =
          (NewTelemetry env.sdk "aixtiv-cli" w).2 ∧
        (main env (prog :: "record-request" :: rest) w).status = Status.panicked)) ∧
    (∀ flags, env.flagParse "record-error" recordErrorFlags rest = Except.ok flags →
      (∀ w2, Telemetry.RecordError (NewTelemetry env.sdk "aixtiv-cli" w).1
          Context.Background (NewTelemetry env.sdk "aixtiv-cli" w).2 = Except.ok w2 →
        (main env (prog :: "record-error" :: rest) w).world = w2 ∧
        (main env (prog :: "record-error" :: rest) w).status = Status.returned) ∧
      (∀ e, Telemetry.RecordError (NewTelemetry env.sdk "aixtiv-cli" w).1
          Context.Background (NewTelemetry env.sdk "aixtiv-cli" w).2 = Except.error e →
        (main env (prog :: "record-error" :: rest) w).world =
          (NewTelemetry env.sdk "aixtiv-cli" w).2 ∧
        (main env (prog :: "record-error" :: rest) w).status = Status.panicked)) ∧
    (∀ flags, env.flagParse "record-knowledge" recordKnowledgeFlags rest = Except.ok flags →
      (∀ w2, Telemetry.RecordKnowledgeAccess (NewTelemetry env.sdk "aixtiv-cli" w).1
          Context.Background (NewTelemetry env.sdk "aixtiv-cli" w).2 = Except.ok w2 →
        (main env (prog :: "record-knowledge" :: rest) w).world = w2 ∧
        (main env (prog :: "record-knowledge" :: rest) w).status = Status.returned) ∧
      (∀ e, Telemetry.RecordKnowledgeAccess (NewTelemetry env.sdk "aixtiv-cli" w).1
          Context.Background (NewTelemetry env.sdk "aixtiv-cli" w).2 = Except.error e →
        (main env (prog :: "record-knowledge" :: rest) w).world =
          (NewTelemetry env.sdk "aixtiv-cli" w).2 ∧
        (main env (prog :: "record-knowledge" :: rest) w).status = Status.panicked)) ∧
    (∀ flags, env.flagParse "record-duration" recordDurationFlags rest = Except.ok flags →
      (∀ d, env.parseFloat (flags "duration") = Except.ok d →
        (∀ w2, Telemetry.RecordDuration (NewTelemetry env.sdk "aixtiv-cli" w).1
            Context.Background d (NewTelemetry env.sdk "aixtiv-cli" w).2 = Except.ok w2 →
          (main env (prog :: "record-duration" :: rest) w).world = w2 ∧
          (main env (prog :: "record-duration" :: rest) w).status = Status.returned) ∧
        (∀ e, Telemetry.RecordDuration (NewTelemetry env.sdk "aixtiv-cli" w).1
            Context.Background d (NewTelemetry env.sdk "aixtiv-cli" w).2 = Except.error e →
          (main env (prog :: "record-duration" :: rest) w).world =
            (NewTelemetry env.sdk "aixtiv-cli" w).2 ∧
          (main env (prog :: "record-duration" :: rest) w).status = Status.panicked)) ∧
      (∀ e, env.parseFloat (flags "duration") = Except.error e →
        (main env (prog :: "record-duration" :: rest) w).world = w ∧
        (main env (prog :: "record-duration" :: rest) w).status = Status.exited 1)) ∧
    (∀ flags, env.flagParse "shutdown" shutdownFlags rest = Except.ok flags →
      (main env (prog :: "shutdown" :: rest) w).world = w ∧
      (main env (prog :: "shutdown" :: rest) w).stdout =
        ["Telemetry shutdown requested for context: " ++ flags "context-id" ++ "\n"] ∧
      (main env (prog :: "shutdown" :: rest) w).status = Status.returned) ∧
    (∀ cf ∈ [("start", startFlags), ("record-request", recordRequestFlags),
        ("record-error", recordErrorFlags), ("record-knowledge", recordKnowledgeFlags),
        ("record-duration", recordDurationFlags), ("shutdown", shutdownFlags)],
      ∀ code, env.flagParse cf.1 cf.2 rest = Except.error code →
        (main env (prog :: cf.1 :: rest) w).world = w ∧
        (main env (prog :: cf.1 :: rest) w).status = Status.exited code) := by
  have hlen : ¬ (rest.length + 1 + 1 < 2) := by omega
  refine ⟨?_, ?_, ?_, ?_, ?_, ?_, ?_, ?_, ?_, ?_⟩
  · simp [main]
  · simp [main]
  · intro cmd hcmd
    simp only [List.mem_cons, List.mem_singleton, List.not_mem_nil, or_false, not_or] at hcmd
    obtain ⟨h1, h2, h3, h4, h5, h6⟩ := hcmd
    simp [main, h1, h2, h3, h4, h5, h6, hlen]
  · intro flags hf
    constructor
    · intro p w1 hp
      simp [main, startTelemetry, hf, hp, hlen]
    · intro e w1 hp
      simp [main, startTelemetry, hf, hp, hlen]
  · intro flags hf
    constructor
    · intro w2 h2
      simp [main, recordRequest, hf, hlen, h2]
    · intro e h2
      simp [main, recordRequest, hf, hlen, h2]
  · intro flags hf
    constructor
    · intro w2 h2
      simp [main, recordError, hf, hlen, h2]
    · intro e h2
      simp [main, recordError, hf, hlen, h2]
  · intro flags hf
    constructor
    · intro w2 h2
      simp [main, recordKnowledgeAccess, hf, hlen, h2]
    · intro e h2
      simp [main, recordKnowledgeAccess, hf, hlen, h2]
  · intro flags hf
    constructor
    · intro d hd
      constructor
      · intro w2 h2
        simp [main, recordDuration, hf, hd, hlen, h2]
      · intro e h2
        simp [main, recordDuration, hf, hd, hlen, h2]
    · intro e hd
      simp [main, recordDuration, hf, hd, hlen]
  · intro flags hf
    simp [main, shutdownTelemetry, hf, hlen]
  · intro cf hcf code hf
    simp only [List.mem_cons, List.mem_singleton, List.not_mem_nil, or_false] at hcf
    rcases hcf with h | h | h | h | h | h <;> subst h
    · simp [main, startTelemetry, hf, hlen]
    · simp [main, recordRequest, hf, hlen]
    · simp [main, recordError, hf, hlen]
    · simp [main, recordKnowledgeAccess, hf, hlen]
    · simp [main, recordDuration, hf, hlen]
    · simp [main, shutdownTelemetry, hf, hlen]

/-- Witness of C10, as amended: `start` and `record-duration` without flags, in a
fresh process. -/
theorem main_dispatch_witness :
    ((main envOK ["telemetry-agent", "start"] World.init).world =
        (NewTelemetry sdkOK "aixtiv-cli" (NewProvider sdkOK World.init).2).2 ∧
      (main envOK ["telemetry-agent", "start"] World.init).status = Status.blocked
        ⟨⟨[TracerProviderOption.WithSampler Sampler.AlwaysSample,
            TracerProviderOption.WithBatcher ⟨0, [StdoutTraceOption.WithPrettyPrint]⟩]⟩,
          ⟨[MeterProviderOption.WithReader (Reader.PeriodicReader ⟨1, []⟩)]⟩,
          ⟨0, [StdoutTraceOption.WithPrettyPrint]⟩, ⟨1, []⟩⟩) ∧
    ((main envOK ["telemetry-agent", "record-duration"] World.init).world =
        (NewTelemetry sdkOK "aixtiv-cli" World.init).2.called
          (Call.record ⟨⟨MeterSource.unset, "aixtiv-cli"⟩, "agent.request.duration",
            [InstrumentOption.WithDescription "Duration of request processing",
             InstrumentOption.WithUnit "ms"]⟩ Context.Background (Float64.finite 0)) ∧
      (main envOK ["telemetry-agent", "record-duration"] World.init).status =
        Status.returned) :=
  ⟨((main_dispatch envOK "telemetry-agent" [] World.init).2.2.2.1 _ rfl).1 _ _ rfl,
   (((main_dispatch envOK "telemetry-agent" [] World.init).2.2.2.2.2.2.2.1 _ rfl).1 _
     rfl).1 _ rfl⟩

/-- C10, as stated, fails: `start` does not make `CreateProvider` alone: after
`NewProvider` it also builds a recorder with `NewTelemetry`, which asks the meter for
the four instruments. -/
theorem start_also_creates_recorder :
    (main envOK ["telemetry-agent", "start"] World.init).world =
      (NewTelemetry sdkOK "aixtiv-cli" (NewProvider sdkOK World.init).2).2 ∧
    (main envOK ["telemetry-agent", "start"] World.init).world.log.length = 6 ∧
    (NewProvider sdkOK World.init).2.log.length = 2 ∧
    (main envOK ["telemetry-agent", "start"] World.init).world.log ≠
      (NewProvider sdkOK World.init).2.log := by
  have h : (main envOK ["telemetry-agent", "start"] World.init).world =
      (NewTelemetry sdkOK "aixtiv-cli" (NewProvider sdkOK World.init).2).2 := by
    simp [main, startTelemetry, envOK, startFlags, NewProvider, stdouttrace.New,
      stdoutmetric.New, sdkOK, World.init, World.called]
  have h6 : (main envOK ["telemetry-agent", "start"] World.init).world.log.length = 6 := by
    rw [h]
    simp [NewProvider, stdouttrace.New, stdoutmetric.New, sdkOK, World.init, World.called,
      NewTelemetry, Meter.Int64Counter, Meter.Float64Histogram, otel.SetTracerProvider,
      otel.SetMeterProvider]
  have h2 : (NewProvider sdkOK World.init).2.log.length = 2 := by
    simp [NewProvider, stdouttrace.New, stdoutmetric.New, sdkOK, World.init, World.called,
      otel.SetTracerProvider, otel.SetMeterProvider]
  refine ⟨h, h6, h2, ?_⟩
  intro hne
  rw [hne, h2] at h6
  omega

end Asoos
